import Mathlib

/-!
Verification of the InstructionPipeline repository: a shallow embedding of
the four-stage pipeline simulator (PipelineSim.h / PipelineSim.cpp), the
dependency graph (DependencyGraph.h / DependencyGraph.cpp) and the driver
computations of Pipeline_Main.cpp, together with theorems settling the
specification claims about them.

Orientation conventions, matching the C++ source:
* `m_lstInstructionPipeline` is stored front first: the head is the newest
  record (`push_front` admission is `List.cons`), the last element is the
  oldest (the C++ `back()`).
* The stage-advance loop of `ProcessNextCycle` iterates the pipeline in
  reverse (oldest record first); it is modelled as a structural recursion
  `advanceLoop` over the reversed (oldest-first) list.
* `m_queInstructions` is a FIFO with the head as its front.
-/

namespace InstructionPipeline

/-- Pipeline instruction state (`PS_PIPELINE_STATE` in PipelineSim.h). -/
inductive PS_PIPELINE_STATE where
  | PS_INVALID
  | PS_IF
  | PS_ID
  | PS_EX
  | PS_WB
  | PS_COMPLETED
deriving DecidableEq, Repr

open PS_PIPELINE_STATE

/-- `NOOP_INSTRUCTION = '-'`: denotes a no-operation instruction. -/
def NOOP_INSTRUCTION : Char := '-'

/-- Instruction data and state (`class CInstructionData`). -/
structure CInstructionData where
  m_Instruction : Char
  m_psState : PS_PIPELINE_STATE
  m_bDataDependent : Bool
deriving DecidableEq, Repr

/-- `CInstructionData::IsNOOP`. -/
def CInstructionData.IsNOOP (r : CInstructionData) : Bool :=
  r.m_Instruction = NOOP_INSTRUCTION

/-- `CInstructionData::GetState`. -/
def CInstructionData.GetState (r : CInstructionData) : PS_PIPELINE_STATE :=
  r.m_psState

/-- `CNoopInstruction(psState)`: a pipeline bubble in the given state. -/
def CNoopInstruction (psState : PS_PIPELINE_STATE) : CInstructionData :=
  ⟨NOOP_INSTRUCTION, psState, false⟩

/-- `class CPipelineSim` state. Counters are modelled as `Nat`. -/
structure CPipelineSim where
  m_dwCycle : Nat
  m_dwStallCtr : Nat
  m_dwCompletedCtr : Nat
  m_dwMaxPipelineDepth : Nat
  m_lstInstructionPipeline : List CInstructionData
  m_queInstructions : List CInstructionData
deriving DecidableEq, Repr

/-- The default-constructed simulator: all counters zero, max depth the
`CONCURRENT_INSTRUCTION_LIMIT` of 4, both containers empty. -/
def CPipelineSim.mk0 : CPipelineSim := ⟨0, 0, 0, 4, [], []⟩

/-- The queue-admission phase at the top of `ProcessNextCycle`: when the
pipeline holds at most `m_dwMaxPipelineDepth` records, pop the queue front
into the pipeline front, or push a fresh bubble when the queue is empty
(setting `bReturn` only in the queue-pop branch). -/
structure AdmitResult where
  pipeline : List CInstructionData
  queue : List CInstructionData
  bReturn : Bool
deriving DecidableEq, Repr

def admitStep (s : CPipelineSim) : AdmitResult :=
  if s.m_lstInstructionPipeline.length ≤ s.m_dwMaxPipelineDepth then
    match s.m_queInstructions with
    | instruction :: restQueue =>
        ⟨instruction :: s.m_lstInstructionPipeline, restQueue, true⟩
    | [] =>
        ⟨CNoopInstruction PS_INVALID :: s.m_lstInstructionPipeline, [], false⟩
  else
    ⟨s.m_lstInstructionPipeline, s.m_queInstructions, false⟩

/-- One record's unconditional stage bump: the actions of the
`ProcessNextCycle` switch other than the stall branch. -/
def advRecord (r : CInstructionData) : CInstructionData :=
  match r.m_psState with
  | PS_INVALID => { r with m_psState := PS_IF }
  | PS_IF => { r with m_psState := PS_ID }
  | PS_ID => { r with m_psState := PS_EX }
  | PS_EX => { r with m_psState := PS_WB }
  | PS_WB => { r with m_psState := PS_COMPLETED }
  | PS_COMPLETED => r

/-- Whether processing record `r` sets `bReturn` in the loop: the
`PS_INVALID`, `PS_IF`, `PS_ID` and `PS_EX` cases set it for non-NOOP
records; the `PS_WB` and `PS_COMPLETED` cases never set it. -/
def bReturnContrib (r : CInstructionData) : Bool :=
  !r.IsNOOP && (r.m_psState = PS_INVALID || r.m_psState = PS_IF ||
                r.m_psState = PS_ID || r.m_psState = PS_EX)

/-- The `PS_WB` case increments `m_dwCompletedCtr` for non-NOOP records. -/
def completedContrib (r : CInstructionData) : Nat :=
  if r.m_psState = PS_WB ∧ !r.IsNOOP then 1 else 0

/-- Record `r` triggers the stall branch: `PS_ID` with the data-dependent
flag set. -/
def stallsAt (r : CInstructionData) : Bool :=
  r.m_psState = PS_ID && r.m_bDataDependent

/-- Result of the stage-advance loop over the oldest-first pipeline list. -/
structure PassResult where
  records : List CInstructionData
  bReturn : Bool
  completedInc : Nat
  bStalled : Bool
deriving DecidableEq, Repr

/-- The reverse iteration of `ProcessNextCycle` over the pipeline, as a
structural recursion over the oldest-first list.  On a stall the record's
flag is cleared, the bubble `CNoopInstruction(PS_EX)` is inserted between
the stalled record and the next older one (`insert(itr.base(), NOOP)`), and
iteration stops; otherwise the record gets its stage bump and iteration
continues toward the newest record. -/
def advanceLoop : List CInstructionData → PassResult
  | [] => ⟨[], false, 0, false⟩
  | r :: rest =>
    if stallsAt r then
      ⟨CNoopInstruction PS_EX :: { r with m_bDataDependent := false } :: rest,
       !r.IsNOOP, 0, true⟩
    else
      let p := advanceLoop rest
      ⟨advRecord r :: p.records, p.bReturn || bReturnContrib r,
       p.completedInc + completedContrib r, p.bStalled⟩

/-- The oldest-first pipeline list right after admission and the advance
pass: its head is the record the C++ retirement check reads via `back()`. -/
def pipelineAfterPass (s : CPipelineSim) : List CInstructionData :=
  (advanceLoop (admitStep s).pipeline.reverse).records

/-- `CPipelineSim::ProcessNextCycle`: increments the cycle counter, admits
queued work (or a bubble), advances every in-flight record oldest first with
at most one stall, retires a completed back record, and reports `bReturn`. -/
def ProcessNextCycle (s : CPipelineSim) : CPipelineSim × Bool :=
  let a := admitStep s
  let p := advanceLoop a.pipeline.reverse
  let retired :=
    match p.records with
    | b :: rest => if b.GetState = PS_COMPLETED then rest else b :: rest
    | [] => []
  (⟨s.m_dwCycle + 1, s.m_dwStallCtr + (if p.bStalled then 1 else 0),
    s.m_dwCompletedCtr + p.completedInc, s.m_dwMaxPipelineDepth,
    retired.reverse, a.queue⟩, a.bReturn || p.bReturn)

/-- `CPipelineSim::InsertInstruction`: push to the queue tail, return the
new queue length. -/
def InsertInstruction (s : CPipelineSim) (instruction : CInstructionData) :
    CPipelineSim × Nat :=
  ({ s with m_queInstructions := s.m_queInstructions ++ [instruction] },
   (s.m_queInstructions ++ [instruction]).length)

/-- The simulator state obtained from a fresh `CPipelineSim` by queueing the
given records in order via `InsertInstruction`. -/
def queuedSim (l : List CInstructionData) : CPipelineSim :=
  l.foldl (fun s i => (InsertInstruction s i).1) CPipelineSim.mk0

/-- `GetStallCount` accessor. -/
def CPipelineSim.GetStallCount (s : CPipelineSim) : Nat := s.m_dwStallCtr

/-- `GetCycle` accessor. -/
def CPipelineSim.GetCycle (s : CPipelineSim) : Nat := s.m_dwCycle

/-- `GetCompletionCount` accessor. -/
def CPipelineSim.GetCompletionCount (s : CPipelineSim) : Nat :=
  s.m_dwCompletedCtr

/-- The state after the first `t` calls of `ProcessNextCycle`. -/
def stepSim (s : CPipelineSim) : CPipelineSim := (ProcessNextCycle s).1

def runSim (s : CPipelineSim) : Nat → CPipelineSim
  | 0 => s
  | t + 1 => stepSim (runSim s t)

/-- The boolean returned by the `t`-th call of `ProcessNextCycle` (`t ≥ 1`)
when it is called repeatedly starting from `s`. -/
def callResult (s : CPipelineSim) (t : Nat) : Bool :=
  (ProcessNextCycle (runSim s (t - 1))).2

/-! ### Dependency graph (DependencyGraph.h / DependencyGraph.cpp) -/

/-- `INVALID_NODE_ID = 0`. -/
def INVALID_NODE_ID : Char := Char.ofNat 0

/-- Directed edge data: destination node ID and weight.  The C++ comparison
operators order and identify an edge by `m_idDestNode` only. -/
structure CDirectedEdgeData where
  m_idDestNode : Char
  m_iWeight : Int
deriving DecidableEq, Repr

/-- `std::set<CDirectedEdgeData>` under the destination-only `operator<`:
a list kept strictly sorted by destination ID; `insert` on a duplicate
destination is a rejected no-op that leaves the stored weight untouched. -/
def edgeSetInsert (e : CDirectedEdgeData) :
    List CDirectedEdgeData → List CDirectedEdgeData × Bool
  | [] => ([e], true)
  | x :: xs =>
    if e.m_idDestNode < x.m_idDestNode then (e :: x :: xs, true)
    else if e.m_idDestNode = x.m_idDestNode then (x :: xs, false)
    else
      let p := edgeSetInsert e xs
      (x :: p.1, p.2)

/-- `class CGraphNode`: node ID plus the set of outgoing edges. -/
structure CGraphNode where
  m_ID : Char
  m_setEdges : List CDirectedEdgeData
deriving DecidableEq, Repr

/-- Default-constructed node: `INVALID_NODE_ID`, empty edge set. -/
def CGraphNode.mk0 : CGraphNode := ⟨INVALID_NODE_ID, []⟩

/-- `CGraphNode::GetNodeID`. -/
def CGraphNode.GetNodeID (n : CGraphNode) : Char := n.m_ID

/-- `CGraphNode::IsValid`: the node ID differs from the sentinel. -/
def CGraphNode.IsValid (n : CGraphNode) : Bool := n.m_ID ≠ INVALID_NODE_ID

/-- `CGraphNode::GetNumEdges`: edge-set size for a valid node, else 0. -/
def CGraphNode.GetNumEdges (n : CGraphNode) : Nat :=
  if n.IsValid then n.m_setEdges.length else 0

/-- `CGraphNode::AddEdge`: only valid nodes accept edges; delegates to the
edge-set insert, which fails exactly on a duplicate destination. -/
def CGraphNode.AddEdge (n : CGraphNode) (idToNode : Char) (iWeight : Int) :
    CGraphNode × Bool :=
  if n.IsValid then
    let p := edgeSetInsert ⟨idToNode, iWeight⟩ n.m_setEdges
    ({ n with m_setEdges := p.1 }, p.2)
  else (n, false)

/-- `CGraphNode::HasEdge`: membership of the destination in the edge set. -/
def CGraphNode.HasEdge (n : CGraphNode) (idToNode : Char) : Bool :=
  n.m_setEdges.any (fun e => e.m_idDestNode = idToNode)

/-- `INVALID_NODE_INDEX = static_cast<size_t>(-1)`. -/
def INVALID_NODE_INDEX : Nat := 2 ^ 64 - 1

/-- `CDependencyGraph::IsValidNodeID`: the TCHAR comparisons
`(idNode >= 'a' && idNode <= 'y') || (idNode >= 'A' && idNode <= 'Y')` on
the character code (97..121 is `a..y`, 65..89 is `A..Y`). -/
def IsValidNodeID (idNode : Char) : Bool :=
  (97 ≤ idNode.toNat && idNode.toNat ≤ 121) ||
  (65 ≤ idNode.toNat && idNode.toNat ≤ 89)

/-- `std::tolower` with the default locale, on the character code
(65..90 is `A..Z`; adding 32 reaches the lower-case letter). -/
def tolowerCode (n : Nat) : Nat :=
  if 65 ≤ n ∧ n ≤ 90 then n + 32 else n

/-- `CDependencyGraph::GetNodeIndex`: pseudo-hash of a node ID to its slot
(case-folded, offset from `'a'` = 97), or the invalid-index sentinel. -/
def GetNodeIndex (idNode : Char) : Nat :=
  if IsValidNodeID idNode then tolowerCode idNode.toNat - 97
  else INVALID_NODE_INDEX

/-- `class CDependencyGraph`: fixed-capacity vector of nodes. -/
structure CDependencyGraph where
  m_nMaxNodes : Nat
  m_nNumNodes : Nat
  m_vNodes : List CGraphNode
deriving DecidableEq, Repr

/-- `CDependencyGraph(nMaxNodes)`: capacity-many default nodes. -/
def CDependencyGraph.mkWith (nMaxNodes : Nat) : CDependencyGraph :=
  ⟨nMaxNodes, 0, List.replicate nMaxNodes CGraphNode.mk0⟩

/-- `CDependencyGraph::IsValidNodeIndex`: index within the capacity. -/
def CDependencyGraph.IsValidNodeIndex (g : CDependencyGraph) (nIndex : Nat) :
    Bool :=
  nIndex < g.m_nMaxNodes

/-- `CDependencyGraph::GetNumNodes`. -/
def CDependencyGraph.GetNumNodes (g : CDependencyGraph) : Nat := g.m_nNumNodes

/-- `CDependencyGraph::GetNumEdges`: sum of every slot's edge count over the
index range `[0, m_nMaxNodes)`. -/
def CDependencyGraph.GetNumEdges (g : CDependencyGraph) : Nat :=
  ((List.range g.m_nMaxNodes).map
    (fun i => (g.m_vNodes.getD i CGraphNode.mk0).GetNumEdges)).sum

/-- `CDependencyGraph::AddNode`: resolve the slot; fail when the index is
out of capacity or the slot already holds a valid node; otherwise stamp the
slot with the ID and bump the node count. -/
def CDependencyGraph.AddNode (g : CDependencyGraph) (idNode : Char) :
    CDependencyGraph × Bool :=
  let nNodeIndex := GetNodeIndex idNode
  if g.IsValidNodeIndex nNodeIndex then
    let node := g.m_vNodes.getD nNodeIndex CGraphNode.mk0
    if node.IsValid = false then
      ({ g with
          m_vNodes := g.m_vNodes.set nNodeIndex { node with m_ID := idNode },
          m_nNumNodes := g.m_nNumNodes + 1 }, true)
    else (g, false)
  else (g, false)

/-- `CDependencyGraph::AddEdge`: validate both identities against the
alphabet, resolve the source slot, and delegate to the node's edge insert
(which fails when the slot does not hold a valid node). -/
def CDependencyGraph.AddEdge (g : CDependencyGraph)
    (idFromNode idToNode : Char) (iWeight : Int) : CDependencyGraph × Bool :=
  if IsValidNodeID idFromNode && IsValidNodeID idToNode then
    let nIndex := GetNodeIndex idFromNode
    if g.IsValidNodeIndex nIndex then
      let p := (g.m_vNodes.getD nIndex CGraphNode.mk0).AddEdge idToNode iWeight
      ({ g with m_vNodes := g.m_vNodes.set nIndex p.1 }, p.2)
    else (g, false)
  else (g, false)

/-- `CDependencyGraph::HasNode`: the ID resolves to an in-range slot that
holds a valid node. -/
def CDependencyGraph.HasNode (g : CDependencyGraph) (idNode : Char) : Bool :=
  let nIndex := GetNodeIndex idNode
  if g.IsValidNodeIndex nIndex then
    (g.m_vNodes.getD nIndex CGraphNode.mk0).IsValid
  else false

/-! ### Driver computations (Pipeline_Main.cpp) -/

/-- The `idNode - 1` character arithmetic used by the driver queries. -/
def predId (c : Char) : Char := Char.ofNat (c.toNat - 1)

/-- `CalculateNumberOfStallsRequired`: iterate the node vector and count the
valid nodes having an edge to the identity one below their own. -/
def CalculateNumberOfStallsRequired (dag : CDependencyGraph) : Nat :=
  dag.m_vNodes.countP (fun nd => nd.IsValid && nd.HasEdge (predId nd.m_ID))

/-- The records `ExecutePipelineSimulation` feeds to the simulator: for each
valid node in slot order, `CInstructionData(idNode, bDataDependent)` with
the flag from the same `HasEdge(idNode - 1)` query. -/
def simInputRecords (dag : CDependencyGraph) : List CInstructionData :=
  (dag.m_vNodes.filter (fun nd => nd.IsValid)).map
    (fun nd => ⟨nd.m_ID, PS_INVALID, nd.HasEdge (predId nd.m_ID)⟩)

/-! ### Basic lemmas about the pipeline step -/

lemma advanceLoop_records_ne_nil (r : CInstructionData)
    (rest : List CInstructionData) : (advanceLoop (r :: rest)).records ≠ [] := by
  cases hs : stallsAt r <;> simp [advanceLoop, hs]

lemma admitStep_pipeline_ne_nil (s : CPipelineSim) :
    (admitStep s).pipeline ≠ [] := by
  unfold admitStep
  split
  · cases s.m_queInstructions <;> simp
  · rename_i h
    show s.m_lstInstructionPipeline ≠ []
    intro hnil
    exact h (by simp [hnil])

/-- Claim C10: every `ProcessNextCycle` call is safe at its retirement step:
for every simulator state (so in particular along every interleaving of
`InsertInstruction` and `ProcessNextCycle` calls from a freshly constructed
simulator), the admission step guarantees that the in-flight list whose back
element the retirement check inspects is non-empty; and calling
`ProcessNextCycle` with nothing queued and nothing in flight is well
defined: it increments the cycle counter, pushes a single bubble (which
moves to Fetch), and returns false. -/
theorem retirement_check_always_safe :
    (∀ s : CPipelineSim, pipelineAfterPass s ≠ []) ∧
    ProcessNextCycle CPipelineSim.mk0 =
      ({ m_dwCycle := 1, m_dwStallCtr := 0, m_dwCompletedCtr := 0,
         m_dwMaxPipelineDepth := 4,
         m_lstInstructionPipeline := [⟨NOOP_INSTRUCTION, PS_IF, false⟩],
         m_queInstructions := [] }, false) := by
  constructor
  · intro s
    unfold pipelineAfterPass
    have h := admitStep_pipeline_ne_nil s
    rcases hp : (admitStep s).pipeline with _ | ⟨r, rest⟩
    · exact absurd hp h
    · have hrev : (r :: rest).reverse ≠ [] := by simp
      obtain ⟨q, qs, hqq⟩ := List.exists_cons_of_ne_nil hrev
      rw [hqq]
      exact advanceLoop_records_ne_nil q qs
  · decide

/-! ### Dependency graph lemmas -/

lemma getD_set_eq (l : List CGraphNode) (i : Nat) (v d : CGraphNode)
    (h : i < l.length) : (l.set i v).getD i d = v := by
  induction l generalizing i with
  | nil => simp at h
  | cons x xs ih =>
    cases i with
    | zero => simp
    | succ j => simpa using ih j (by simpa using h)

/-- For a valid identity the slot index is its case-folded offset from `'a'`,
which lies below 25. -/
lemma GetNodeIndex_lt_25 (x : Char) (hv : IsValidNodeID x = true) :
    GetNodeIndex x < 25 := by
  unfold GetNodeIndex tolowerCode
  rw [if_pos hv]
  unfold IsValidNodeID at hv
  simp only [Bool.or_eq_true, Bool.and_eq_true, decide_eq_true_eq] at hv
  split <;> omega

lemma valid_ne_invalid (x : Char) (hv : IsValidNodeID x = true) :
    ¬ x = INVALID_NODE_ID := by
  unfold IsValidNodeID at hv
  simp only [Bool.or_eq_true, Bool.and_eq_true, decide_eq_true_eq] at hv
  intro h
  have h0 : x.toNat = (INVALID_NODE_ID).toNat := by rw [h]
  have h1 : (INVALID_NODE_ID).toNat = 0 := by decide
  omega

lemma addNode_step (g : CDependencyGraph) (x : Char)
    (hidx : GetNodeIndex x < g.m_nMaxNodes)
    (hslot : (g.m_vNodes.getD (GetNodeIndex x) CGraphNode.mk0).IsValid
      = false) :
    g.AddNode x =
      ({ g with
          m_vNodes := g.m_vNodes.set (GetNodeIndex x)
            { g.m_vNodes.getD (GetNodeIndex x) CGraphNode.mk0 with m_ID := x },
          m_nNumNodes := g.m_nNumNodes + 1 }, true) := by
  unfold CDependencyGraph.AddNode
  simp [CDependencyGraph.IsValidNodeIndex, hidx,
    ← List.getD_eq_getElem?_getD, hslot]

/-- Claim C6: for every identity in the valid alphabet, with the driver's
capacity of 25 and the identity not yet present, `AddNode` twice returns
false on the second call and `GetNumNodes` increases by exactly 1 in total:
repeat calls fail rather than create a duplicate node. -/
theorem addNode_twice (g : CDependencyGraph) (x : Char)
    (hWF : g.m_vNodes.length = g.m_nMaxNodes) (hcap : g.m_nMaxNodes = 25)
    (hv : IsValidNodeID x = true) (hnew : g.HasNode x = false) :
    ((g.AddNode x).1.AddNode x).2 = false ∧
    ((g.AddNode x).1.AddNode x).1.GetNumNodes = g.GetNumNodes + 1 := by
  have hidx : GetNodeIndex x < g.m_nMaxNodes := by
    rw [hcap]; exact GetNodeIndex_lt_25 x hv
  have hlen : GetNodeIndex x < g.m_vNodes.length := by rw [hWF]; exact hidx
  have hslot : (g.m_vNodes.getD (GetNodeIndex x) CGraphNode.mk0).IsValid
      = false := by
    unfold CDependencyGraph.HasNode at hnew
    simpa [CDependencyGraph.IsValidNodeIndex, hidx] using hnew
  rw [addNode_step g x hidx hslot]
  have hget : (g.m_vNodes.set (GetNodeIndex x)
      { g.m_vNodes.getD (GetNodeIndex x) CGraphNode.mk0 with
          m_ID := x }).getD (GetNodeIndex x) CGraphNode.mk0 =
      { g.m_vNodes.getD (GetNodeIndex x) CGraphNode.mk0 with m_ID := x } :=
    getD_set_eq _ _ _ _ hlen
  have hval : ({ g.m_vNodes.getD (GetNodeIndex x) CGraphNode.mk0 with
      m_ID := x } : CGraphNode).IsValid = true := by
    simp [CGraphNode.IsValid, valid_ne_invalid x hv]
  constructor
  · unfold CDependencyGraph.AddNode
    simp [CDependencyGraph.IsValidNodeIndex, hidx,
      ← List.getD_eq_getElem?_getD, hget, hval]
  · unfold CDependencyGraph.AddNode
    simp [CDependencyGraph.IsValidNodeIndex, hidx,
      ← List.getD_eq_getElem?_getD, hget, hval,
      CDependencyGraph.GetNumNodes]

/-- Witness instantiating `addNode_twice` at a concrete input. -/
theorem addNode_twice_witness :
    (((CDependencyGraph.mkWith 25).AddNode 'b').1.AddNode 'b').2 = false ∧
    (((CDependencyGraph.mkWith 25).AddNode 'b').1.AddNode 'b').1.GetNumNodes
      = (CDependencyGraph.mkWith 25).GetNumNodes + 1 :=
  addNode_twice (CDependencyGraph.mkWith 25) 'b' (by decide) (by decide)
    (by decide) (by decide)

/-! ### Edge-set insertion lemmas -/

/-- Edges compared by destination only, as the C++ `operator<`. -/
def edgeLt (x y : CDirectedEdgeData) : Prop :=
  x.m_idDestNode < y.m_idDestNode

lemma edgeSetInsert_length (e : CDirectedEdgeData)
    (l : List CDirectedEdgeData) :
    (edgeSetInsert e l).1.length
      = l.length + (if (edgeSetInsert e l).2 then 1 else 0) := by
  induction l with
  | nil => simp [edgeSetInsert]
  | cons x xs ih =>
    unfold edgeSetInsert
    split
    · simp
    · split
      · simp
      · simp only [List.length_cons]
        omega

lemma edgeSetInsert_fail_unchanged (e : CDirectedEdgeData)
    (l : List CDirectedEdgeData) (h : (edgeSetInsert e l).2 = false) :
    (edgeSetInsert e l).1 = l := by
  induction l with
  | nil => simp [edgeSetInsert] at h
  | cons x xs ih =>
    by_cases h1 : e.m_idDestNode < x.m_idDestNode
    · simp [edgeSetInsert, h1] at h
    · by_cases h2 : e.m_idDestNode = x.m_idDestNode
      · simp [edgeSetInsert, h1, h2]
      · simp only [edgeSetInsert, if_neg h1, if_neg h2] at h ⊢
        simp only [List.cons.injEq, true_and]
        exact ih h

lemma edgeSetInsert_not_mem_true (e : CDirectedEdgeData)
    (l : List CDirectedEdgeData)
    (h : l.any (fun f => f.m_idDestNode = e.m_idDestNode) = false) :
    (edgeSetInsert e l).2 = true := by
  induction l with
  | nil => simp [edgeSetInsert]
  | cons x xs ih =>
    simp only [List.any_cons, Bool.or_eq_false_iff, decide_eq_false_iff_not]
      at h
    by_cases h1 : e.m_idDestNode < x.m_idDestNode
    · simp [edgeSetInsert, h1]
    · have h2 : ¬ e.m_idDestNode = x.m_idDestNode :=
        fun hc => h.1 hc.symm
      simp only [edgeSetInsert, if_neg h1, if_neg h2]
      exact ih h.2

lemma edgeSetInsert_find (e : CDirectedEdgeData) (l : List CDirectedEdgeData)
    (h : l.any (fun f => f.m_idDestNode = e.m_idDestNode) = false) :
    (edgeSetInsert e l).1.find? (fun f => f.m_idDestNode = e.m_idDestNode)
      = some e := by
  induction l with
  | nil => simp [edgeSetInsert]
  | cons x xs ih =>
    simp only [List.any_cons, Bool.or_eq_false_iff, decide_eq_false_iff_not]
      at h
    by_cases h1 : e.m_idDestNode < x.m_idDestNode
    · simp [edgeSetInsert, h1]
    · have h2 : ¬ e.m_idDestNode = x.m_idDestNode :=
        fun hc => h.1 hc.symm
      simp only [edgeSetInsert, if_neg h1, if_neg h2]
      rw [List.find?_cons_of_neg _ (by simpa using h.1)]
      exact ih h.2

lemma edgeSetInsert_mem (e f : CDirectedEdgeData) (l : List CDirectedEdgeData)
    (h : f ∈ (edgeSetInsert e l).1) : f ∈ l ∨ f = e := by
  induction l with
  | nil => simpa [edgeSetInsert] using h
  | cons x xs ih =>
    by_cases h1 : e.m_idDestNode < x.m_idDestNode
    · simp only [edgeSetInsert, if_pos h1] at h
      rcases List.mem_cons.mp h with h | h
      · right; exact h
      · left; exact h
    · by_cases h2 : e.m_idDestNode = x.m_idDestNode
      · simp only [edgeSetInsert, if_neg h1, if_pos h2] at h
        left; exact h
      · simp only [edgeSetInsert, if_neg h1, if_neg h2] at h
        rcases List.mem_cons.mp h with h | h
        · left; exact h ▸ List.mem_cons_self x xs
        · rcases ih h with h3 | h3
          · left; exact List.mem_cons_of_mem x h3
          · right; exact h3

lemma edgeSetInsert_sorted (e : CDirectedEdgeData)
    (l : List CDirectedEdgeData) (hs : l.Pairwise edgeLt) :
    (edgeSetInsert e l).1.Pairwise edgeLt := by
  induction l with
  | nil => simp [edgeSetInsert]
  | cons x xs ih =>
    rcases List.pairwise_cons.mp hs with ⟨hx, hxs⟩
    by_cases h1 : e.m_idDestNode < x.m_idDestNode
    · simp only [edgeSetInsert, if_pos h1]
      refine List.pairwise_cons.mpr ⟨?_, hs⟩
      intro b hb
      rcases List.mem_cons.mp hb with hb | hb
      · exact hb ▸ h1
      · exact lt_trans h1 (hx b hb)
    · by_cases h2 : e.m_idDestNode = x.m_idDestNode
      · simp only [edgeSetInsert, if_neg h1, if_pos h2]
        exact hs
      · simp only [edgeSetInsert, if_neg h1, if_neg h2]
        refine List.pairwise_cons.mpr ⟨?_, ih hxs⟩
        intro b hb
        rcases edgeSetInsert_mem e b xs hb with h3 | h3
        · exact hx b h3
        · subst h3
          exact lt_of_le_of_ne (not_lt.mp h1) (fun hc => h2 hc.symm)

lemma edgeSetInsert_dup_false (e : CDirectedEdgeData)
    (l : List CDirectedEdgeData) (hs : l.Pairwise edgeLt)
    (hmem : l.any (fun f => f.m_idDestNode = e.m_idDestNode) = true) :
    (edgeSetInsert e l).2 = false := by
  induction l with
  | nil => simp at hmem
  | cons x xs ih =>
    rcases List.pairwise_cons.mp hs with ⟨hx, hxs⟩
    simp only [List.any_cons, Bool.or_eq_true, decide_eq_true_eq] at hmem
    by_cases h1 : e.m_idDestNode < x.m_idDestNode
    · exfalso
      rcases hmem with h | h
      · exact absurd (h ▸ h1) (lt_irrefl _)
      · rcases List.any_eq_true.mp h with ⟨f, hf, hfd⟩
        have h4 := hx f hf
        unfold edgeLt at h4
        rw [decide_eq_true_eq] at hfd
        rw [hfd] at h4
        exact absurd (lt_trans h1 h4) (lt_irrefl _)
    · by_cases h2 : e.m_idDestNode = x.m_idDestNode
      · simp [edgeSetInsert, h1, h2]
      · simp only [edgeSetInsert, if_neg h1, if_neg h2]
        rcases hmem with h | h
        · exact absurd h (fun hc => h2 hc.symm)
        · exact ih hxs h

/-- The weight stored in the graph for the edge `a → b`, when present. -/
def edgeWeightFrom (g : CDependencyGraph) (a b : Char) : Option Int :=
  ((g.m_vNodes.getD (GetNodeIndex a) CGraphNode.mk0).m_setEdges.find?
      (fun e => e.m_idDestNode = b)).map (fun e => e.m_iWeight)

lemma range_map_getD_sum (f : CGraphNode → Nat) (l : List CGraphNode) :
    ((List.range l.length).map
      (fun i => f (l.getD i CGraphNode.mk0))).sum = (l.map f).sum := by
  induction l with
  | nil => simp
  | cons x xs ih =>
    rw [List.length_cons, List.range_succ_eq_map]
    simp only [List.map_cons, List.map_map, List.sum_cons, List.getD_cons_zero]
    congr 1

lemma map_set_sum (f : CGraphNode → Nat) (l : List CGraphNode) (i : Nat)
    (v : CGraphNode) (h : i < l.length) :
    ((l.set i v).map f).sum + f (l.getD i CGraphNode.mk0)
      = (l.map f).sum + f v := by
  induction l generalizing i with
  | nil => simp at h
  | cons x xs ih =>
    cases i with
    | zero =>
      simp only [List.set_cons_zero, List.map_cons, List.sum_cons,
        List.getD_cons_zero]
      omega
    | succ j =>
      simp only [List.set_cons_succ, List.map_cons, List.sum_cons,
        List.getD_cons_succ]
      have := ih j (by simpa using h)
      omega

lemma getNumEdges_eq_map_sum (g : CDependencyGraph)
    (hWF : g.m_vNodes.length = g.m_nMaxNodes) :
    g.GetNumEdges = (g.m_vNodes.map CGraphNode.GetNumEdges).sum := by
  unfold CDependencyGraph.GetNumEdges
  rw [← hWF, range_map_getD_sum]

lemma set_getD_self (l : List CGraphNode) (i : Nat) (d : CGraphNode)
    (h : i < l.length) : l.set i (l.getD i d) = l := by
  induction l generalizing i with
  | nil => simp at h
  | cons x xs ih =>
    cases i with
    | zero => simp
    | succ j => simpa using ih j (by simpa using h)

instance edgeLt.decidable (x y : CDirectedEdgeData) : Decidable (edgeLt x y) :=
  inferInstanceAs (Decidable (x.m_idDestNode < y.m_idDestNode))

lemma nodeAddEdge_valid (n : CGraphNode) (b : Char) (w : Int)
    (hv : n.IsValid = true) :
    n.AddEdge b w =
      ({ n with m_setEdges := (edgeSetInsert ⟨b, w⟩ n.m_setEdges).1 },
       (edgeSetInsert ⟨b, w⟩ n.m_setEdges).2) := by
  unfold CGraphNode.AddEdge
  rw [if_pos hv]

lemma nodeAddEdge_invalid (n : CGraphNode) (b : Char) (w : Int)
    (hv : n.IsValid = false) : n.AddEdge b w = (n, false) := by
  unfold CGraphNode.AddEdge
  rw [if_neg (by simp [hv])]

lemma addEdge_unfold (g : CDependencyGraph) (a b : Char) (w : Int)
    (hva : IsValidNodeID a = true) (hvb : IsValidNodeID b = true)
    (hidx : GetNodeIndex a < g.m_nMaxNodes) :
    g.AddEdge a b w =
      ({ g with m_vNodes := (g.m_vNodes.set (GetNodeIndex a)
          ((g.m_vNodes.getD (GetNodeIndex a) CGraphNode.mk0).AddEdge b w).1) },
       ((g.m_vNodes.getD (GetNodeIndex a) CGraphNode.mk0).AddEdge b w).2) := by
  unfold CDependencyGraph.AddEdge
  rw [hva, hvb]
  simp only [Bool.and_self, if_true]
  rw [if_pos (show (CDependencyGraph.IsValidNodeIndex g (GetNodeIndex a))
    = true by simp [CDependencyGraph.IsValidNodeIndex, hidx])]

/-- Claim C7: for alphabet identities `a`, `b` with `a` already added (its
slot valid, edges sorted by destination, no edge to `b` yet):
`AddEdge(a,b,w)` returns true the first time and false on any repeat with
the same destination (any weight), the repeat is a no-op on the graph,
`GetNumEdges` grows by exactly 1 across the two calls, and the stored
weight stays the one of the first insert. -/
theorem addEdge_twice (g : CDependencyGraph) (a b : Char) (w w2 : Int)
    (hWF : g.m_vNodes.length = g.m_nMaxNodes)
    (hva : IsValidNodeID a = true) (hvb : IsValidNodeID b = true)
    (hnode : g.HasNode a = true)
    (hsorted : (g.m_vNodes.getD (GetNodeIndex a)
        CGraphNode.mk0).m_setEdges.Pairwise edgeLt)
    (hnoedge : (g.m_vNodes.getD (GetNodeIndex a) CGraphNode.mk0).HasEdge b
      = false) :
    (g.AddEdge a b w).2 = true ∧
    ((g.AddEdge a b w).1.AddEdge a b w2).2 = false ∧
    ((g.AddEdge a b w).1.AddEdge a b w2).1 = (g.AddEdge a b w).1 ∧
    ((g.AddEdge a b w).1.AddEdge a b w2).1.GetNumEdges
      = g.GetNumEdges + 1 ∧
    edgeWeightFrom ((g.AddEdge a b w).1.AddEdge a b w2).1 a b = some w := by
  have hidx : GetNodeIndex a < g.m_nMaxNodes := by
    unfold CDependencyGraph.HasNode at hnode
    by_cases hc : g.IsValidNodeIndex (GetNodeIndex a) = true
    · simpa [CDependencyGraph.IsValidNodeIndex] using hc
    · rw [if_neg hc] at hnode; exact absurd hnode (by simp)
  have hlen : GetNodeIndex a < g.m_vNodes.length := by rw [hWF]; exact hidx
  set node := g.m_vNodes.getD (GetNodeIndex a) CGraphNode.mk0 with hnodedef
  have hvalid : node.IsValid = true := by
    unfold CDependencyGraph.HasNode at hnode
    simpa [CDependencyGraph.IsValidNodeIndex, hidx,
      ← List.getD_eq_getElem?_getD, ← hnodedef] using hnode
  have hanymem : node.m_setEdges.any
      (fun f => f.m_idDestNode = (⟨b, w⟩ : CDirectedEdgeData).m_idDestNode)
      = false := by
    unfold CGraphNode.HasEdge at hnoedge
    simpa using hnoedge
  have hins : (edgeSetInsert ⟨b, w⟩ node.m_setEdges).2 = true :=
    edgeSetInsert_not_mem_true _ _ hanymem
  set node1 : CGraphNode :=
    { node with m_setEdges := (edgeSetInsert ⟨b, w⟩ node.m_setEdges).1 }
    with hnode1
  have hfirst : g.AddEdge a b w =
      ({ g with m_vNodes := g.m_vNodes.set (GetNodeIndex a) node1 }, true) := by
    rw [addEdge_unfold g a b w hva hvb hidx, ← hnodedef,
      nodeAddEdge_valid node b w hvalid, ← hnode1, hins]
  have hget1 : (g.m_vNodes.set (GetNodeIndex a) node1).getD (GetNodeIndex a)
      CGraphNode.mk0 = node1 := getD_set_eq _ _ _ _ hlen
  have hvalid1 : node1.IsValid = true := hvalid
  have hmem1 : node1.m_setEdges.any
      (fun f => f.m_idDestNode = (⟨b, w2⟩ : CDirectedEdgeData).m_idDestNode)
      = true := by
    have hf := edgeSetInsert_find ⟨b, w⟩ node.m_setEdges hanymem
    exact List.any_eq_true.mpr ⟨⟨b, w⟩, List.mem_of_find?_eq_some hf, by simp⟩
  have hsorted1 : node1.m_setEdges.Pairwise edgeLt :=
    edgeSetInsert_sorted _ _ hsorted
  have hins2 : (edgeSetInsert ⟨b, w2⟩ node1.m_setEdges).2 = false :=
    edgeSetInsert_dup_false _ _ hsorted1 hmem1
  have hsecond : ∀ gg : CDependencyGraph,
      gg.m_vNodes = g.m_vNodes.set (GetNodeIndex a) node1 →
      gg.m_nMaxNodes = g.m_nMaxNodes →
      gg.AddEdge a b w2 = (gg, false) := by
    intro gg hgv hgm
    rw [addEdge_unfold gg a b w2 hva hvb (by rw [hgm]; exact hidx)]
    rw [hgv, hget1]
    rw [nodeAddEdge_valid node1 b w2 hvalid1, hins2,
      edgeSetInsert_fail_unchanged _ _ hins2]
    rw [List.set_set]
    have heta : ({ m_ID := node1.m_ID, m_setEdges := node1.m_setEdges } :
        CGraphNode) = node1 := rfl
    rw [heta, ← hgv]
  have hsecond2 : (g.AddEdge a b w).1.AddEdge a b w2
      = ((g.AddEdge a b w).1, false) := by
    rw [hfirst]
    exact hsecond _ rfl rfl
  refine ⟨by rw [hfirst], by rw [hsecond2], by rw [hsecond2], ?_, ?_⟩
  · rw [hsecond2, hfirst]
    have hWF1 : ((g.m_vNodes.set (GetNodeIndex a) node1)).length
        = g.m_nMaxNodes := by
      rw [List.length_set]; exact hWF
    have hsum := map_set_sum CGraphNode.GetNumEdges g.m_vNodes
      (GetNodeIndex a) node1 hlen
    have hcount : node1.GetNumEdges = node.GetNumEdges + 1 := by
      unfold CGraphNode.GetNumEdges
      rw [if_pos hvalid1, if_pos hvalid]
      show (edgeSetInsert ⟨b, w⟩ node.m_setEdges).1.length
        = node.m_setEdges.length + 1
      rw [edgeSetInsert_length, hins]
      rfl
    have hb1 := getNumEdges_eq_map_sum
      { g with m_vNodes := g.m_vNodes.set (GetNodeIndex a) node1 } hWF1
    dsimp only at hb1
    have hb0 := getNumEdges_eq_map_sum g hWF
    rw [hb1, hb0]
    rw [← hnodedef] at hsum
    omega
  · rw [hsecond2, hfirst]
    show edgeWeightFrom
      { g with m_vNodes := g.m_vNodes.set (GetNodeIndex a) node1 } a b
        = some w
    unfold edgeWeightFrom
    show ((((g.m_vNodes.set (GetNodeIndex a) node1)).getD (GetNodeIndex a)
        CGraphNode.mk0).m_setEdges.find?
        (fun e => e.m_idDestNode = b)).map (fun e => e.m_iWeight) = some w
    rw [hget1, hnode1]
    have hf := edgeSetInsert_find ⟨b, w⟩ node.m_setEdges hanymem
    simp only at hf ⊢
    rw [hf]
    rfl

/-- Witness instantiating `addEdge_twice` at a concrete input. -/
theorem addEdge_twice_witness :
    ((((CDependencyGraph.mkWith 25).AddNode 'b').1).AddEdge 'b' 'a' 1).2
      = true ∧
    (((((CDependencyGraph.mkWith 25).AddNode 'b').1).AddEdge 'b' 'a' 1).1.AddEdge
        'b' 'a' 7).2 = false ∧
    (((((CDependencyGraph.mkWith 25).AddNode 'b').1).AddEdge 'b' 'a' 1).1.AddEdge
        'b' 'a' 7).1
      = ((((CDependencyGraph.mkWith 25).AddNode 'b').1).AddEdge 'b' 'a' 1).1 ∧
    (((((CDependencyGraph.mkWith 25).AddNode 'b').1).AddEdge 'b' 'a' 1).1.AddEdge
        'b' 'a' 7).1.GetNumEdges
      = (((CDependencyGraph.mkWith 25).AddNode 'b').1).GetNumEdges + 1 ∧
    edgeWeightFrom
      (((((CDependencyGraph.mkWith 25).AddNode 'b').1).AddEdge 'b' 'a' 1).1.AddEdge
        'b' 'a' 7).1 'b' 'a' = some 1 :=
  addEdge_twice (((CDependencyGraph.mkWith 25).AddNode 'b').1) 'b' 'a' 1 7
    (by decide) (by decide) (by decide) (by decide) (by decide) (by decide)

/-- Claim C8 counterexample: with only `'b'` registered, an edge to the
never-registered (but alphabet-valid) destination `'a'` is accepted and
changes the graph, so `AddEdge` does not fail whenever the destination is
unregistered. -/
theorem addEdge_unregistered_dest_cex :
    (((CDependencyGraph.mkWith 25).AddNode 'b').1).HasNode 'a' = false ∧
    ((((CDependencyGraph.mkWith 25).AddNode 'b').1).AddEdge 'b' 'a' 1).2
      = true ∧
    ((((CDependencyGraph.mkWith 25).AddNode 'b').1).AddEdge 'b' 'a' 1).1.GetNumEdges
      = 1 ∧
    (((CDependencyGraph.mkWith 25).AddNode 'b').1).GetNumEdges = 0 := by
  decide

/-- Claim C8 as amended: `AddEdge` returns false (a silent boolean, no
exception) and leaves the graph unchanged whenever the source identity is
not registered with `AddNode`, or either identity is outside the valid
alphabet; registration of the destination is not required. -/
theorem addEdge_unregistered_source_fails (g : CDependencyGraph)
    (a b : Char) (w : Int) (hWF : g.m_vNodes.length = g.m_nMaxNodes)
    (h : IsValidNodeID a = false ∨ IsValidNodeID b = false ∨
      g.HasNode a = false) :
    g.AddEdge a b w = (g, false) := by
  by_cases hva : IsValidNodeID a = true
  · by_cases hvb : IsValidNodeID b = true
    · have hno : g.HasNode a = false := by
        rcases h with h | h | h
        · rw [hva] at h; exact absurd h (by simp)
        · rw [hvb] at h; exact absurd h (by simp)
        · exact h
      unfold CDependencyGraph.HasNode at hno
      by_cases hidxb : g.IsValidNodeIndex (GetNodeIndex a) = true
      · rw [if_pos hidxb] at hno
        have hidx : GetNodeIndex a < g.m_nMaxNodes := by
          simpa [CDependencyGraph.IsValidNodeIndex] using hidxb
        have hlen : GetNodeIndex a < g.m_vNodes.length := by
          rw [hWF]; exact hidx
        rw [addEdge_unfold g a b w hva hvb hidx]
        rw [nodeAddEdge_invalid _ b w (by
          simpa [← List.getD_eq_getElem?_getD] using hno)]
        rw [set_getD_self g.m_vNodes (GetNodeIndex a) CGraphNode.mk0 hlen]
      · unfold CDependencyGraph.AddEdge
        rw [hva, hvb]
        simp only [Bool.and_self, if_true]
        rw [if_neg hidxb]
    · unfold CDependencyGraph.AddEdge
      rw [hva, eq_false_of_ne_true hvb]
      simp
  · unfold CDependencyGraph.AddEdge
    rw [eq_false_of_ne_true hva]
    simp

/-- Witness instantiating `addEdge_unregistered_source_fails`. -/
theorem addEdge_unregistered_source_fails_witness :
    (CDependencyGraph.mkWith 25).AddEdge 'c' 'd' 2
      = (CDependencyGraph.mkWith 25, false) :=
  addEdge_unregistered_source_fails (CDependencyGraph.mkWith 25) 'c' 'd' 2
    (by decide) (Or.inr (Or.inr (by decide)))

/-! ### Claim C2: the bReturn signal -/

/-- The records the advance loop examines before stopping: all of them when
no stall occurs, otherwise those up to and including the stalled one. -/
def processedRecords : List CInstructionData → List CInstructionData
  | [] => []
  | r :: rest => if stallsAt r then [r] else r :: processedRecords rest

lemma advanceLoop_bReturn_eq (l : List CInstructionData) :
    (advanceLoop l).bReturn = (processedRecords l).any bReturnContrib := by
  induction l with
  | nil => simp [advanceLoop, processedRecords]
  | cons r rest ih =>
    by_cases hs : stallsAt r = true
    · have hsp := hs
      simp only [stallsAt, Bool.and_eq_true, decide_eq_true_eq] at hsp
      simp [advanceLoop, processedRecords, hs, bReturnContrib, hsp.1]
    · have hs2 : stallsAt r = false := eq_false_of_ne_true hs
      simp [advanceLoop, processedRecords, hs2, ih, Bool.or_comm]

/-- Claim C2 counterexample: with a single non-dependent instruction `'a'`
queued into a fresh simulator, before the fifth call the non-bubble record
`'a'` sits in WriteBack; the fifth call moves it WriteBack→Completed (the
completion counter goes 0 to 1 and the record is retired), yet that call
returns false — so a WriteBack→Completed stage change of a non-bubble does
not make the call report true. -/
theorem wb_transition_returns_false_cex :
    (runSim (queuedSim [⟨'a', PS_INVALID, false⟩]) 4).m_lstInstructionPipeline
      = [CNoopInstruction PS_IF, CNoopInstruction PS_ID,
         CNoopInstruction PS_EX, ⟨'a', PS_WB, false⟩] ∧
    (ProcessNextCycle (runSim (queuedSim [⟨'a', PS_INVALID, false⟩]) 4)).2
      = false ∧
    (runSim (queuedSim [⟨'a', PS_INVALID, false⟩]) 5).m_dwCompletedCtr = 1 ∧
    (runSim (queuedSim [⟨'a', PS_INVALID, false⟩]) 4).m_dwCompletedCtr = 0 := by
  decide

/-- Claim C2 as amended: `ProcessNextCycle` returns true iff a queued
instruction was admitted this call (pipeline size at most the max depth and
queue non-empty), or some non-bubble record examined by the stage-advance
pass — up to and including a freshly stalled record — was in stage
Uninitialized, Fetch, Decode or Execute when processed; transitions out of
WriteBack (including WriteBack→Completed) and bubbles never set the
signal. -/
theorem processNextCycle_bReturn_iff (s : CPipelineSim) :
    (ProcessNextCycle s).2 =
      ((decide (s.m_lstInstructionPipeline.length ≤ s.m_dwMaxPipelineDepth) &&
        !s.m_queInstructions.isEmpty) ||
       (processedRecords (admitStep s).pipeline.reverse).any bReturnContrib)
    := by
  show ((admitStep s).bReturn ||
      (advanceLoop (admitStep s).pipeline.reverse).bReturn) = _
  rw [advanceLoop_bReturn_eq]
  congr 1
  unfold admitStep
  split
  · rename_i h
    cases s.m_queInstructions <;> simp [h]
  · rename_i h
    simp [h]

/-! ### Claim C1: the stall branch -/

/-- Claim C1: when the back-to-front pass reaches a Decode record with its
data-dependent flag set (no older record having stalled first), that record
stays in Decode with its flag cleared, a `CNoopInstruction(PS_EX)` bubble is
inserted immediately behind it in program order (between it and the next
older record), the pass stops so every newer record is left unchanged, and
the pass reports a stall; at the simulator level the stall counter increases
by exactly one when the pass stalls, and by at most one in any cycle. -/
theorem stall_branch_behavior (pre post : List CInstructionData)
    (r : CInstructionData) (hpre : ∀ x ∈ pre, stallsAt x = false)
    (hr : r.m_psState = PS_ID) (hdep : r.m_bDataDependent = true) :
    advanceLoop (pre ++ r :: post) =
      ⟨pre.map advRecord ++ CNoopInstruction PS_EX ::
         { r with m_bDataDependent := false } :: post,
       pre.any bReturnContrib || !r.IsNOOP,
       (pre.map completedContrib).sum, true⟩ ∧
    (∀ s : CPipelineSim,
      (ProcessNextCycle s).1.m_dwStallCtr = s.m_dwStallCtr +
        (if (advanceLoop (admitStep s).pipeline.reverse).bStalled
          then 1 else 0)) ∧
    (∀ s : CPipelineSim,
      (ProcessNextCycle s).1.m_dwStallCtr ≤ s.m_dwStallCtr + 1) := by
  refine ⟨?_, fun s => rfl, fun s => ?_⟩
  · induction pre with
    | nil =>
      have hs : stallsAt r = true := by simp [stallsAt, hr, hdep]
      simp [advanceLoop, hs]
    | cons x xs ih =>
      have hx : stallsAt x = false := hpre x (List.mem_cons_self x xs)
      have ih2 := ih (fun y hy => hpre y (List.mem_cons_of_mem x hy))
      show advanceLoop (x :: (xs ++ r :: post)) = _
      rw [show advanceLoop (x :: (xs ++ r :: post)) =
        ⟨advRecord x :: (advanceLoop (xs ++ r :: post)).records,
         (advanceLoop (xs ++ r :: post)).bReturn || bReturnContrib x,
         (advanceLoop (xs ++ r :: post)).completedInc + completedContrib x,
         (advanceLoop (xs ++ r :: post)).bStalled⟩ from by
          simp [advanceLoop, hx]]
      rw [ih2]
      simp only [PassResult.mk.injEq, List.map_cons, List.cons_append,
        List.any_cons, List.sum_cons, true_and, and_true]
      constructor
      · cases hb : bReturnContrib x <;>
          cases hbs : xs.any bReturnContrib <;>
          cases hn : (!r.IsNOOP) <;> simp [hb, hbs, hn]
      · omega
  · show s.m_dwStallCtr +
      (if (advanceLoop (admitStep s).pipeline.reverse).bStalled
        then 1 else 0) ≤ s.m_dwStallCtr + 1
    split <;> omega

/-- Witness instantiating `stall_branch_behavior` at a concrete input. -/
theorem stall_branch_behavior_witness :
    (advanceLoop ([⟨'a', PS_EX, false⟩] ++
        (⟨'b', PS_ID, true⟩ : CInstructionData) :: [⟨'c', PS_IF, false⟩]) =
      ⟨[⟨'a', PS_EX, false⟩].map advRecord ++ CNoopInstruction PS_EX ::
         { (⟨'b', PS_ID, true⟩ : CInstructionData) with
            m_bDataDependent := false } :: [⟨'c', PS_IF, false⟩],
       [⟨'a', PS_EX, false⟩].any bReturnContrib ||
         !(⟨'b', PS_ID, true⟩ : CInstructionData).IsNOOP,
       ([⟨'a', PS_EX, false⟩].map completedContrib).sum, true⟩) ∧
    (ProcessNextCycle CPipelineSim.mk0).1.m_dwStallCtr =
      CPipelineSim.mk0.m_dwStallCtr +
        (if (advanceLoop
          (admitStep CPipelineSim.mk0).pipeline.reverse).bStalled
          then 1 else 0) ∧
    (ProcessNextCycle CPipelineSim.mk0).1.m_dwStallCtr ≤
      CPipelineSim.mk0.m_dwStallCtr + 1 := by
  have h := stall_branch_behavior [⟨'a', PS_EX, false⟩]
    [⟨'c', PS_IF, false⟩] ⟨'b', PS_ID, true⟩ (by decide) rfl rfl
  exact ⟨h.1, h.2.1 CPipelineSim.mk0, h.2.2 CPipelineSim.mk0⟩

/-! ### Claim C9: termination and resource bounds -/

def flagNat (r : CInstructionData) : Nat :=
  if r.m_bDataDependent then 1 else 0

/-- Pipeline stages left until `PS_COMPLETED`. -/
def stagesLeft : PS_PIPELINE_STATE → Nat
  | PS_INVALID => 5
  | PS_IF => 4
  | PS_ID => 3
  | PS_EX => 2
  | PS_WB => 1
  | PS_COMPLETED => 0

/-- Remaining-work potential of one record: bubbles carry no stage work, a
set data-dependent flag carries two units (consumed by its stall). -/
def phiRec (r : CInstructionData) : Nat :=
  (if r.IsNOOP then 0 else stagesLeft r.m_psState) + 2 * flagNat r

def phiList (l : List CInstructionData) : Nat := (l.map phiRec).sum

/-- Potential of a simulator state; queued records carry one extra unit that
pays for their admission. -/
def phiSim (s : CPipelineSim) : Nat :=
  phiList s.m_lstInstructionPipeline +
    (s.m_queInstructions.map (fun r => phiRec r + 1)).sum

lemma phiList_reverse (l : List CInstructionData) :
    phiList l.reverse = phiList l := by
  unfold phiList
  rw [List.map_reverse, List.sum_reverse]

lemma advRecord_instruction (x : CInstructionData) :
    (advRecord x).m_Instruction = x.m_Instruction := by
  unfold advRecord
  cases x.m_psState <;> rfl

lemma advRecord_flag (x : CInstructionData) :
    (advRecord x).m_bDataDependent = x.m_bDataDependent := by
  unfold advRecord
  cases x.m_psState <;> rfl

lemma advRecord_noop (x : CInstructionData) :
    (advRecord x).IsNOOP = x.IsNOOP := by
  unfold CInstructionData.IsNOOP
  rw [advRecord_instruction]

lemma phiRec_adv (x : CInstructionData) :
    phiRec (advRecord x) + (if bReturnContrib x then 1 else 0) ≤ phiRec x := by
  obtain ⟨xi, xst, xf⟩ := x
  cases xst <;> cases xf <;>
    by_cases hn : xi = NOOP_INSTRUCTION <;>
      simp [advRecord, phiRec, bReturnContrib, stagesLeft, flagNat,
        CInstructionData.IsNOOP, hn]

lemma phiRec_clear_flag (r : CInstructionData)
    (h : r.m_bDataDependent = true) :
    phiRec { r with m_bDataDependent := false } + 2 = phiRec r := by
  unfold phiRec flagNat CInstructionData.IsNOOP
  simp [h]

lemma advanceLoop_cons_nostall (r : CInstructionData)
    (rest : List CInstructionData) (hs : stallsAt r = false) :
    advanceLoop (r :: rest) =
      ⟨advRecord r :: (advanceLoop rest).records,
       (advanceLoop rest).bReturn || bReturnContrib r,
       (advanceLoop rest).completedInc + completedContrib r,
       (advanceLoop rest).bStalled⟩ := by
  simp [advanceLoop, hs]

lemma advanceLoop_cons_stall (r : CInstructionData)
    (rest : List CInstructionData) (hs : stallsAt r = true) :
    advanceLoop (r :: rest) =
      ⟨CNoopInstruction PS_EX :: { r with m_bDataDependent := false } :: rest,
       !r.IsNOOP, 0, true⟩ := by
  simp [advanceLoop, hs]

lemma advanceLoop_phi (l : List CInstructionData) :
    phiList (advanceLoop l).records +
      (if (advanceLoop l).bReturn then 1 else 0) ≤ phiList l := by
  induction l with
  | nil => simp [advanceLoop, phiList]
  | cons r rest ih =>
    by_cases hs : stallsAt r = true
    · have hflag : r.m_bDataDependent = true := by
        simp only [stallsAt, Bool.and_eq_true, decide_eq_true_eq] at hs
        exact hs.2
      rw [advanceLoop_cons_stall r rest hs]
      simp only [phiList, List.map_cons, List.sum_cons]
      have hbub : phiRec (CNoopInstruction PS_EX) = 0 := by decide
      have hclear := phiRec_clear_flag r hflag
      have hite : (if (!r.IsNOOP) = true then 1 else 0) ≤ 1 := by
        split <;> omega
      omega
    · have hs2 : stallsAt r = false := eq_false_of_ne_true hs
      rw [advanceLoop_cons_nostall r rest hs2]
      simp only [phiList, List.map_cons, List.sum_cons]
      have hrec := phiRec_adv r
      have hih := ih
      unfold phiList at hih
      cases hb : (advanceLoop rest).bReturn <;>
        cases hc : bReturnContrib r <;>
          simp only [hb, hc] at hrec hih ⊢ <;> simp at hrec hih ⊢ <;> omega

lemma phiList_tail_le (l : List CInstructionData) :
    phiList l.tail ≤ phiList l := by
  cases l with
  | nil => simp
  | cons x xs => simp [phiList]

/-- Every call of `ProcessNextCycle` that returns true strictly decreases
the potential, and no call ever increases it. -/
lemma phiSim_step (s : CPipelineSim) :
    phiSim (stepSim s) + (if (ProcessNextCycle s).2 then 1 else 0)
      ≤ phiSim s := by
  have hpass := advanceLoop_phi (admitStep s).pipeline.reverse
  have hretire : phiList (stepSim s).m_lstInstructionPipeline ≤
      phiList (advanceLoop (admitStep s).pipeline.reverse).records := by
    show phiList (match (advanceLoop (admitStep s).pipeline.reverse).records
        with
      | b :: rest => if b.GetState = PS_COMPLETED then rest else b :: rest
      | [] => ([] : List CInstructionData)).reverse ≤ _
    rw [phiList_reverse]
    rcases hrec : (advanceLoop (admitStep s).pipeline.reverse).records with
      _ | ⟨b, rest⟩
    · simp
    · by_cases hb : b.GetState = PS_COMPLETED
      · simp only [hb, if_pos, if_true]
        simp [phiList]
      · simp [hb]
  have hqueue : phiList (admitStep s).pipeline +
      ((stepSim s).m_queInstructions.map (fun r => phiRec r + 1)).sum +
      (if (admitStep s).bReturn then 1 else 0) ≤ phiSim s := by
    show phiList (admitStep s).pipeline +
      ((admitStep s).queue.map (fun r => phiRec r + 1)).sum + _ ≤ _
    unfold admitStep phiSim
    split
    · rcases hq : s.m_queInstructions with _ | ⟨q, qs⟩
      · dsimp only
        have h1 : phiRec (CNoopInstruction PS_INVALID) = 0 := by decide
        simp [phiList, h1]
      · dsimp only
        simp only [phiList, List.map_cons, List.sum_cons, if_true]
        omega
    · dsimp only
      simp
  rw [phiList_reverse] at hpass
  have hret2 : (if (ProcessNextCycle s).2 then 1 else 0) ≤
      (if (admitStep s).bReturn then 1 else 0) +
      (if (advanceLoop (admitStep s).pipeline.reverse).bReturn then 1
        else 0) := by
    show (if ((admitStep s).bReturn ||
        (advanceLoop (admitStep s).pipeline.reverse).bReturn) then 1 else 0)
      ≤ _
    cases (admitStep s).bReturn <;>
      cases (advanceLoop (admitStep s).pipeline.reverse).bReturn <;> simp
  have hfinal : phiSim (stepSim s) = phiList (stepSim s).m_lstInstructionPipeline +
      ((stepSim s).m_queInstructions.map (fun r => phiRec r + 1)).sum := rfl
  omega

lemma runSim_shift (s : CPipelineSim) (t : Nat) :
    runSim s (t + 1) = runSim (stepSim s) t := by
  induction t with
  | zero => rfl
  | succ t ih =>
    show stepSim (runSim s (t + 1)) = stepSim (runSim (stepSim s) t)
    rw [ih]

lemma callResult_shift (s : CPipelineSim) (n : Nat) (h : 1 ≤ n) :
    callResult s (n + 1) = callResult (stepSim s) n := by
  unfold callResult
  obtain ⟨k, rfl⟩ : ∃ k, n = k + 1 := ⟨n - 1, by omega⟩
  have h1 : k + 1 + 1 - 1 = k + 1 := by omega
  have h2 : k + 1 - 1 = k := by omega
  rw [h1, h2, runSim_shift]

lemma run_false_exists (m : Nat) : ∀ s : CPipelineSim, phiSim s ≤ m →
    ∃ n, 1 ≤ n ∧ n ≤ m + 1 ∧ callResult s n = false := by
  induction m with
  | zero =>
    intro s h0
    cases hret : (ProcessNextCycle s).2
    · exact ⟨1, le_refl _, by omega, by
        unfold callResult runSim
        simpa using hret⟩
    · exfalso
      have := phiSim_step s
      rw [hret] at this
      simp at this
      omega
  | succ m ih =>
    intro s hm
    cases hret : (ProcessNextCycle s).2
    · exact ⟨1, le_refl _, by omega, by
        unfold callResult runSim
        simpa using hret⟩
    · have hs := phiSim_step s
      rw [hret] at hs
      simp only [if_pos, if_true] at hs
      obtain ⟨n, h1, h2, h3⟩ := ih (stepSim s) (by omega)
      exact ⟨n + 1, by omega, by omega, by rw [callResult_shift s n h1]; exact h3⟩

def flagsList (l : List CInstructionData) : Nat := (l.map flagNat).sum

def flagsSim (s : CPipelineSim) : Nat :=
  flagsList s.m_lstInstructionPipeline + flagsList s.m_queInstructions

lemma flagsList_reverse (l : List CInstructionData) :
    flagsList l.reverse = flagsList l := by
  unfold flagsList
  rw [List.map_reverse, List.sum_reverse]

/-- The advance pass consumes exactly one set flag per injected stall. -/
lemma advanceLoop_flags (l : List CInstructionData) :
    flagsList (advanceLoop l).records +
      (if (advanceLoop l).bStalled then 1 else 0) = flagsList l := by
  induction l with
  | nil => simp [advanceLoop, flagsList]
  | cons r rest ih =>
    by_cases hs : stallsAt r = true
    · have hflag : r.m_bDataDependent = true := by
        simp only [stallsAt, Bool.and_eq_true, decide_eq_true_eq] at hs
        exact hs.2
      rw [advanceLoop_cons_stall r rest hs]
      simp only [flagsList, List.map_cons, List.sum_cons, if_true]
      have h1 : flagNat (CNoopInstruction PS_EX) = 0 := rfl
      have h2 : flagNat { r with m_bDataDependent := false } = 0 := rfl
      have h3 : flagNat r = 1 := by simp [flagNat, hflag]
      omega
    · have hs2 : stallsAt r = false := eq_false_of_ne_true hs
      rw [advanceLoop_cons_nostall r rest hs2]
      simp only [flagsList, List.map_cons, List.sum_cons] at ih ⊢
      have h5 : flagNat (advRecord r) = flagNat r := by
        unfold flagNat
        rw [advRecord_flag]
      omega

lemma flagsList_tail_le (l : List CInstructionData) :
    flagsList l.tail ≤ flagsList l := by
  cases l with
  | nil => simp
  | cons x xs => simp [flagsList]

/-- Stalls are paid for by flags: the stall counter plus the remaining
flags never increases across a call. -/
lemma stall_flags_step (s : CPipelineSim) :
    (stepSim s).m_dwStallCtr + flagsSim (stepSim s) ≤
      s.m_dwStallCtr + flagsSim s := by
  have hpass := advanceLoop_flags (admitStep s).pipeline.reverse
  rw [flagsList_reverse] at hpass
  have hretire : flagsList (stepSim s).m_lstInstructionPipeline ≤
      flagsList (advanceLoop (admitStep s).pipeline.reverse).records := by
    show flagsList (match (advanceLoop (admitStep s).pipeline.reverse).records
        with
      | b :: rest => if b.GetState = PS_COMPLETED then rest else b :: rest
      | [] => ([] : List CInstructionData)).reverse ≤ _
    rw [flagsList_reverse]
    rcases hrec : (advanceLoop (admitStep s).pipeline.reverse).records with
      _ | ⟨b, rest⟩
    · simp
    · by_cases hb : b.GetState = PS_COMPLETED
      · simp only [hb, if_pos, if_true]
        simp [flagsList]
      · simp [hb]
  have hqueue : flagsList (admitStep s).pipeline +
      flagsList (stepSim s).m_queInstructions ≤ flagsSim s := by
    show flagsList (admitStep s).pipeline + flagsList (admitStep s).queue ≤ _
    unfold admitStep flagsSim
    split
    · rcases hq : s.m_queInstructions with _ | ⟨q, qs⟩
      · simp [flagsList, CNoopInstruction, flagNat]
      · simp only [flagsList, List.map_cons, List.sum_cons]
        omega
    · simp
  have hstall : (stepSim s).m_dwStallCtr = s.m_dwStallCtr +
      (if (advanceLoop (admitStep s).pipeline.reverse).bStalled then 1
        else 0) := rfl
  have hfinal : flagsSim (stepSim s) =
      flagsList (stepSim s).m_lstInstructionPipeline +
      flagsList (stepSim s).m_queInstructions := rfl
  omega

lemma foldl_insertInstruction (l : List CInstructionData)
    (s : CPipelineSim) :
    l.foldl (fun s i => (InsertInstruction s i).1) s
      = { s with m_queInstructions := s.m_queInstructions ++ l } := by
  induction l generalizing s with
  | nil =>
    show s = _
    rw [List.append_nil]
  | cons x xs ih =>
    show xs.foldl _ ((InsertInstruction s x).1) = _
    rw [ih]
    unfold InsertInstruction
    simp

lemma queuedSim_eq (l : List CInstructionData) :
    queuedSim l = ⟨0, 0, 0, 4, [], l⟩ := by
  unfold queuedSim CPipelineSim.mk0
  rw [foldl_insertInstruction]
  rfl

lemma flagsList_eq_countP (l : List CInstructionData) :
    flagsList l = l.countP (fun r => r.m_bDataDependent) := by
  induction l with
  | nil => rfl
  | cons x xs ih =>
    rw [List.countP_cons]
    unfold flagsList at ih ⊢
    simp only [List.map_cons, List.sum_cons, flagNat, ih]
    by_cases hx : x.m_bDataDependent = true <;> simp [hx] <;> omega

/-- Claim C9: for every finite sequence of records queued via
`InsertInstruction` into a fresh simulator, repeated `ProcessNextCycle`
calls terminate — some call returns false; moreover the pending queue only
shrinks during the run and the stall counter stays bounded by the number of
queued records whose data-dependent flag is set. -/
theorem processNextCycle_terminates (l : List CInstructionData) :
    (∃ n, 1 ≤ n ∧ callResult (queuedSim l) n = false) ∧
    (∀ t, (runSim (queuedSim l) (t + 1)).m_queInstructions.length ≤
      (runSim (queuedSim l) t).m_queInstructions.length) ∧
    (∀ t, (runSim (queuedSim l) t).GetStallCount ≤
      l.countP (fun r => r.m_bDataDependent)) := by
  refine ⟨?_, ?_, ?_⟩
  · obtain ⟨n, h1, _, h3⟩ :=
      run_false_exists (phiSim (queuedSim l)) (queuedSim l) (le_refl _)
    exact ⟨n, h1, h3⟩
  · intro t
    show (stepSim (runSim (queuedSim l) t)).m_queInstructions.length ≤ _
    generalize runSim (queuedSim l) t = s
    show (admitStep s).queue.length ≤ _
    unfold admitStep
    split
    · cases s.m_queInstructions <;> simp
    · simp
  · intro t
    have hbound : ∀ u, (runSim (queuedSim l) u).m_dwStallCtr +
        flagsSim (runSim (queuedSim l) u) ≤
        (queuedSim l).m_dwStallCtr + flagsSim (queuedSim l) := by
      intro u
      induction u with
      | zero => simp [runSim]
      | succ u ihu =>
        have h2 := stall_flags_step (runSim (queuedSim l) u)
        show (stepSim (runSim (queuedSim l) u)).m_dwStallCtr +
          flagsSim (stepSim (runSim (queuedSim l) u)) ≤ _
        omega
    have h0 : (queuedSim l).m_dwStallCtr = 0 := by rw [queuedSim_eq]
    have h1 : flagsSim (queuedSim l) =
        l.countP (fun r => r.m_bDataDependent) := by
      rw [queuedSim_eq]
      show flagsList [] + flagsList l = _
      have h2 : flagsList [] = 0 := rfl
      rw [h2, Nat.zero_add, flagsList_eq_countP]
    have := hbound t
    unfold CPipelineSim.GetStallCount
    omega

/-! ### Generic single-cycle lemmas, used for claims C4 and C5 -/

/-- The successor stage, as assigned by the non-stall switch cases. -/
def nextStage : PS_PIPELINE_STATE → PS_PIPELINE_STATE
  | PS_INVALID => PS_IF
  | PS_IF => PS_ID
  | PS_ID => PS_EX
  | PS_EX => PS_WB
  | PS_WB => PS_COMPLETED
  | PS_COMPLETED => PS_COMPLETED

@[simp] lemma CNoopInstruction_state (ps : PS_PIPELINE_STATE) :
    (CNoopInstruction ps).m_psState = ps := rfl

@[simp] lemma CNoopInstruction_flag (ps : PS_PIPELINE_STATE) :
    (CNoopInstruction ps).m_bDataDependent = false := rfl

@[simp] lemma CNoopInstruction_IsNOOP (ps : PS_PIPELINE_STATE) :
    (CNoopInstruction ps).IsNOOP = true := by
  simp [CNoopInstruction, CInstructionData.IsNOOP]

@[simp] lemma CNoopInstruction_GetState (ps : PS_PIPELINE_STATE) :
    (CNoopInstruction ps).GetState = ps := rfl

@[simp] lemma bReturnContrib_bubble (ps : PS_PIPELINE_STATE) :
    bReturnContrib (CNoopInstruction ps) = false := by
  simp [bReturnContrib]

@[simp] lemma completedContrib_bubble (ps : PS_PIPELINE_STATE) :
    completedContrib (CNoopInstruction ps) = 0 := by
  simp [completedContrib]

@[simp] lemma advRecord_bubble (ps : PS_PIPELINE_STATE) :
    advRecord (CNoopInstruction ps) = CNoopInstruction (nextStage ps) := by
  cases ps <;> rfl

@[simp] lemma stallsAt_bubble (ps : PS_PIPELINE_STATE) :
    stallsAt (CNoopInstruction ps) = false := by
  simp [stallsAt]

/-- The record the admission step pushes, one stage-advance later. -/
def admittedIF (q : List CInstructionData) : CInstructionData :=
  match q with
  | r :: _ => { r with m_psState := PS_IF }
  | [] => CNoopInstruction PS_IF

/-- The record the admission step pushes, not yet advanced (the pass was
stopped by a stall before reaching it). -/
def admittedRaw (q : List CInstructionData) : CInstructionData :=
  match q with
  | r :: _ => r
  | [] => CNoopInstruction PS_INVALID

@[simp] lemma admittedIF_cons (r : CInstructionData)
    (rest : List CInstructionData) :
    admittedIF (r :: rest) = { r with m_psState := PS_IF } := rfl

@[simp] lemma admittedIF_nil : admittedIF [] = CNoopInstruction PS_IF := rfl

@[simp] lemma admittedRaw_cons (r : CInstructionData)
    (rest : List CInstructionData) :
    admittedRaw (r :: rest) = r := rfl

@[simp] lemma admittedRaw_nil :
    admittedRaw [] = CNoopInstruction PS_INVALID := rfl

lemma processNextCycle_ramp0 (cyc st cc : Nat) (q : List CInstructionData)
    (hq : ∀ r ∈ q.take 1, r.m_psState = PS_INVALID) :
    ProcessNextCycle ⟨cyc, st, cc, 4, [], q⟩ =
      (⟨cyc + 1, st, cc, 4,
        [admittedIF q], q.tail⟩,
       !q.isEmpty) := by
  rcases q with _ | ⟨r, rest⟩
  · unfold ProcessNextCycle admitStep
    simp [advanceLoop, CInstructionData.GetState, nextStage]
  · have hr : r.m_psState = PS_INVALID := hq r (by simp)
    unfold ProcessNextCycle admitStep
    simp [advanceLoop, stallsAt, advRecord, hr,
      CInstructionData.GetState, completedContrib]

lemma processNextCycle_ramp1 (cyc st cc : Nat) (q : List CInstructionData)
    (w : CInstructionData) (hw : w.m_psState = PS_IF)
    (hq : ∀ r ∈ q.take 1, r.m_psState = PS_INVALID) :
    ProcessNextCycle ⟨cyc, st, cc, 4, [w], q⟩ =
      (⟨cyc + 1, st, cc, 4,
        admittedIF q :: [{ w with m_psState := PS_ID }],
        q.tail⟩,
       (!q.isEmpty || !w.IsNOOP)) := by
  rcases q with _ | ⟨r, rest⟩
  · unfold ProcessNextCycle admitStep
    simp [advanceLoop, stallsAt, advRecord, hw,
      CInstructionData.GetState, completedContrib, bReturnContrib, nextStage]
    simp [CNoopInstruction, NOOP_INSTRUCTION]
  · have hr : r.m_psState = PS_INVALID := hq r (by simp)
    unfold ProcessNextCycle admitStep
    simp [advanceLoop, stallsAt, advRecord, hw, hr,
      CInstructionData.GetState, completedContrib, bReturnContrib]

lemma processNextCycle_ramp2 (cyc st cc : Nat) (q : List CInstructionData)
    (w x : CInstructionData) (hw : w.m_psState = PS_IF)
    (hx : x.m_psState = PS_ID) (hxf : x.m_bDataDependent = false)
    (hq : ∀ r ∈ q.take 1, r.m_psState = PS_INVALID) :
    ProcessNextCycle ⟨cyc, st, cc, 4, [w, x], q⟩ =
      (⟨cyc + 1, st, cc, 4,
        admittedIF q ::
          [{ w with m_psState := PS_ID }, { x with m_psState := PS_EX }],
        q.tail⟩,
       (!q.isEmpty || !w.IsNOOP || !x.IsNOOP)) := by
  rcases q with _ | ⟨r, rest⟩
  · unfold ProcessNextCycle admitStep
    simp [advanceLoop, stallsAt, advRecord, hw, hx, hxf,
      CInstructionData.GetState, completedContrib, bReturnContrib, nextStage]
    simp [CNoopInstruction, NOOP_INSTRUCTION]
  · have hr : r.m_psState = PS_INVALID := hq r (by simp)
    unfold ProcessNextCycle admitStep
    simp [advanceLoop, stallsAt, advRecord, hw, hx, hxf, hr,
      CInstructionData.GetState, completedContrib, bReturnContrib]

lemma processNextCycle_ramp3 (cyc st cc : Nat) (q : List CInstructionData)
    (w x y : CInstructionData) (hw : w.m_psState = PS_IF)
    (hx : x.m_psState = PS_ID) (hxf : x.m_bDataDependent = false)
    (hy : y.m_psState = PS_EX)
    (hq : ∀ r ∈ q.take 1, r.m_psState = PS_INVALID) :
    ProcessNextCycle ⟨cyc, st, cc, 4, [w, x, y], q⟩ =
      (⟨cyc + 1, st, cc, 4,
        admittedIF q ::
          [{ w with m_psState := PS_ID }, { x with m_psState := PS_EX },
           { y with m_psState := PS_WB }],
        q.tail⟩,
       (!q.isEmpty || !w.IsNOOP || !x.IsNOOP || !y.IsNOOP)) := by
  rcases q with _ | ⟨r, rest⟩
  · unfold ProcessNextCycle admitStep
    simp [advanceLoop, stallsAt, advRecord, hw, hx, hxf, hy,
      CInstructionData.GetState, completedContrib, bReturnContrib, nextStage]
    simp [CNoopInstruction, NOOP_INSTRUCTION]
  · have hr : r.m_psState = PS_INVALID := hq r (by simp)
    unfold ProcessNextCycle admitStep
    simp [advanceLoop, stallsAt, advRecord, hw, hx, hxf, hy, hr,
      CInstructionData.GetState, completedContrib, bReturnContrib]

lemma processNextCycle_steady (cyc st cc : Nat) (q : List CInstructionData)
    (w x y z : CInstructionData)
    (hw : w.m_psState = PS_IF) (hx : x.m_psState = PS_ID)
    (hxf : x.m_bDataDependent = false)
    (hy : y.m_psState = PS_EX) (hz : z.m_psState = PS_WB)
    (hq : ∀ r ∈ q.take 1, r.m_psState = PS_INVALID) :
    ProcessNextCycle ⟨cyc, st, cc, 4, [w, x, y, z], q⟩ =
      (⟨cyc + 1, st, cc + completedContrib z, 4,
        admittedIF q ::
          [{ w with m_psState := PS_ID }, { x with m_psState := PS_EX },
           { y with m_psState := PS_WB }],
        q.tail⟩,
       (!q.isEmpty || !w.IsNOOP || !x.IsNOOP || !y.IsNOOP)) := by
  rcases q with _ | ⟨r, rest⟩
  · unfold ProcessNextCycle admitStep
    simp [advanceLoop, stallsAt, advRecord, hw, hx, hxf, hy, hz,
      CInstructionData.GetState, CInstructionData.IsNOOP,
      completedContrib, bReturnContrib, NOOP_INSTRUCTION, nextStage]
    simp [CNoopInstruction, NOOP_INSTRUCTION]
  · have hr : r.m_psState = PS_INVALID := hq r (by simp)
    unfold ProcessNextCycle admitStep
    simp [advanceLoop, stallsAt, advRecord, hw, hx, hxf, hy, hz, hr,
      CInstructionData.GetState, completedContrib, bReturnContrib]

lemma processNextCycle_stall3 (cyc st cc : Nat) (q : List CInstructionData)
    (w x y : CInstructionData) (hw : w.m_psState = PS_IF)
    (hx : x.m_psState = PS_ID) (hxf : x.m_bDataDependent = true)
    (hy : y.m_psState = PS_EX) :
    ProcessNextCycle ⟨cyc, st, cc, 4, [w, x, y], q⟩ =
      (⟨cyc + 1, st + 1, cc, 4,
        admittedRaw q ::
          [w, { x with m_bDataDependent := false }, CNoopInstruction PS_EX,
           { y with m_psState := PS_WB }],
        q.tail⟩,
       (!q.isEmpty || !x.IsNOOP || !y.IsNOOP)) := by
  rcases q with _ | ⟨r, rest⟩
  · unfold ProcessNextCycle admitStep
    simp [advanceLoop, stallsAt, advRecord, hw, hx, hxf, hy,
      CInstructionData.GetState, completedContrib, bReturnContrib, nextStage]
  · unfold ProcessNextCycle admitStep
    simp [advanceLoop, stallsAt, advRecord, hw, hx, hxf, hy,
      CInstructionData.GetState, completedContrib, bReturnContrib]

lemma processNextCycle_stall4 (cyc st cc : Nat) (q : List CInstructionData)
    (w x y z : CInstructionData) (hw : w.m_psState = PS_IF)
    (hx : x.m_psState = PS_ID) (hxf : x.m_bDataDependent = true)
    (hy : y.m_psState = PS_EX) (hz : z.m_psState = PS_WB) :
    ProcessNextCycle ⟨cyc, st, cc, 4, [w, x, y, z], q⟩ =
      (⟨cyc + 1, st + 1, cc + completedContrib z, 4,
        admittedRaw q ::
          [w, { x with m_bDataDependent := false }, CNoopInstruction PS_EX,
           { y with m_psState := PS_WB }],
        q.tail⟩,
       (!q.isEmpty || !x.IsNOOP || !y.IsNOOP)) := by
  rcases q with _ | ⟨r, rest⟩
  · unfold ProcessNextCycle admitStep
    simp [advanceLoop, stallsAt, advRecord, hw, hx, hxf, hy, hz,
      CInstructionData.GetState, CInstructionData.IsNOOP,
      completedContrib, bReturnContrib, NOOP_INSTRUCTION, nextStage]
  · unfold ProcessNextCycle admitStep
    simp [advanceLoop, stallsAt, advRecord, hw, hx, hxf, hy, hz,
      CInstructionData.GetState, completedContrib, bReturnContrib]

lemma processNextCycle_full5 (cyc st cc : Nat) (q : List CInstructionData)
    (v w x y z : CInstructionData) (hv : v.m_psState = PS_INVALID)
    (hw : w.m_psState = PS_IF) (hx : x.m_psState = PS_ID)
    (hxf : x.m_bDataDependent = false)
    (hy : y.m_psState = PS_EX) (hz : z.m_psState = PS_WB) :
    ProcessNextCycle ⟨cyc, st, cc, 4, [v, w, x, y, z], q⟩ =
      (⟨cyc + 1, st, cc + completedContrib z, 4,
        [{ v with m_psState := PS_IF }, { w with m_psState := PS_ID },
         { x with m_psState := PS_EX }, { y with m_psState := PS_WB }],
        q⟩,
       (!v.IsNOOP || !w.IsNOOP || !x.IsNOOP || !y.IsNOOP)) := by
  unfold ProcessNextCycle admitStep
  simp [advanceLoop, stallsAt, advRecord, hv, hw, hx, hxf, hy, hz,
    CInstructionData.GetState, completedContrib, bReturnContrib]

/-! ### Claim C4: a run of k independent instructions -/

/-- Queue of instruction records carrying no data-dependence flag. -/
def noDepQueue (L : List Char) : List CInstructionData :=
  L.map (fun c => ⟨c, PS_INVALID, false⟩)

/-- The record admitted by call `m` of the no-dependency run: the `m`-th
queued instruction while the queue lasts, a NOOP bubble afterwards. -/
def c4rec (L : List Char) (m : Nat) (ps : PS_PIPELINE_STATE) :
    CInstructionData :=
  ⟨if 1 ≤ m ∧ m ≤ L.length then L.getD (m - 1) NOOP_INSTRUCTION
    else NOOP_INSTRUCTION, ps, false⟩

/-- Pipeline contents (front = newest) after `t` calls of the
no-dependency run. -/
def c4window (L : List Char) : Nat → List CInstructionData
  | 0 => []
  | 1 => [c4rec L 1 PS_IF]
  | 2 => [c4rec L 2 PS_IF, c4rec L 1 PS_ID]
  | 3 => [c4rec L 3 PS_IF, c4rec L 2 PS_ID, c4rec L 1 PS_EX]
  | n + 4 => [c4rec L (n + 4) PS_IF, c4rec L (n + 3) PS_ID,
      c4rec L (n + 2) PS_EX, c4rec L (n + 1) PS_WB]

/-- Full simulator state after `t` calls of the no-dependency run. -/
def c4state (L : List Char) (t : Nat) : CPipelineSim :=
  ⟨t, 0, min (t - 4) L.length, 4, c4window L t, (noDepQueue L).drop t⟩

lemma c4rec_state (L : List Char) (m : Nat) (ps : PS_PIPELINE_STATE) :
    (c4rec L m ps).m_psState = ps := rfl

lemma c4rec_flag (L : List Char) (m : Nat) (ps : PS_PIPELINE_STATE) :
    (c4rec L m ps).m_bDataDependent = false := rfl

lemma c4rec_adv (L : List Char) (m : Nat) (ps ps' : PS_PIPELINE_STATE) :
    ({ c4rec L m ps with m_psState := ps' } : CInstructionData) =
      c4rec L m ps' := rfl

lemma c4rec_not_noop (L : List Char) (hL : ∀ c ∈ L, c ≠ NOOP_INSTRUCTION)
    (m : Nat) (ps : PS_PIPELINE_STATE) :
    (!(c4rec L m ps).IsNOOP) = decide (1 ≤ m ∧ m ≤ L.length) := by
  unfold c4rec CInstructionData.IsNOOP
  by_cases h : 1 ≤ m ∧ m ≤ L.length
  · have hlt : m - 1 < L.length := by omega
    simp only [if_pos h]
    rw [List.getD_eq_getElem?_getD, List.getElem?_eq_getElem hlt,
      Option.getD_some]
    simp [hL _ (List.getElem_mem hlt), h]
  · simp [if_neg h, h]

lemma c4rec_bubble (L : List Char) (m : Nat) (ps : PS_PIPELINE_STATE)
    (h : L.length < m) : c4rec L m ps = CNoopInstruction ps := by
  have h1 : ¬ (1 ≤ m ∧ m ≤ L.length) := by omega
  simp [c4rec, h1, CNoopInstruction]

lemma noDepQueue_state (L : List Char) :
    ∀ r ∈ noDepQueue L, r.m_psState = PS_INVALID := by
  intro r hr
  simp only [noDepQueue, List.mem_map] at hr
  obtain ⟨c, _, rfl⟩ := hr
  rfl

lemma noDepQueue_drop (L : List Char) (t : Nat) (ht : t < L.length) :
    (noDepQueue L).drop t =
      c4rec L (t + 1) PS_INVALID :: (noDepQueue L).drop (t + 1) := by
  have hlen : t < (noDepQueue L).length := by simpa [noDepQueue] using ht
  rw [List.drop_eq_getElem_cons hlen]
  congr 1
  have : (noDepQueue L)[t] = ⟨L[t], PS_INVALID, false⟩ := by
    simp [noDepQueue]
  rw [this]
  have h1 : 1 ≤ t + 1 ∧ t + 1 ≤ L.length := by omega
  simp only [c4rec, if_pos h1, Nat.add_sub_cancel]
  rw [List.getD_eq_getElem?_getD, List.getElem?_eq_getElem ht,
    Option.getD_some]

lemma noDepQueue_drop_nil (L : List Char) (t : Nat) (ht : L.length ≤ t) :
    (noDepQueue L).drop t = [] :=
  List.drop_eq_nil_of_le (by simpa [noDepQueue] using ht)

lemma completedContrib_c4rec (L : List Char)
    (hL : ∀ c ∈ L, c ≠ NOOP_INSTRUCTION) (m : Nat) :
    completedContrib (c4rec L m PS_WB) =
      if 1 ≤ m ∧ m ≤ L.length then 1 else 0 := by
  have h := c4rec_not_noop L hL m PS_WB
  simp only [completedContrib, c4rec_state, h]
  by_cases hm : 1 ≤ m ∧ m ≤ L.length <;> simp [hm]

lemma c4_hq (L : List Char) (t : Nat) :
    ∀ r ∈ ((noDepQueue L).drop t).take 1, r.m_psState = PS_INVALID :=
  fun r hr =>
    noDepQueue_state L r (List.mem_of_mem_drop (List.mem_of_mem_take hr))

lemma c4_step (L : List Char) (hL : ∀ c ∈ L, c ≠ NOOP_INSTRUCTION)
    (hk : 1 ≤ L.length) (t : Nat) :
    ProcessNextCycle (c4state L t) =
      (c4state L (t + 1), decide (t + 1 ≤ L.length + 3)) := by
  have hreal : ∀ m ps, 1 ≤ m → m ≤ L.length →
      (!(c4rec L m ps).IsNOOP) = true := by
    intro m ps h1 h2
    rw [c4rec_not_noop L hL]
    simp [h1, h2]
  rcases t with _ | _ | _ | _ | n
  · -- t = 0: empty pipeline, first admission
    have h0 : c4state L 0 = ⟨0, 0, 0, 4, [], (noDepQueue L).drop 0⟩ := by
      simp [c4state, c4window]
    rw [h0, processNextCycle_ramp0 0 0 0 _ (c4_hq L 0)]
    rw [noDepQueue_drop L 0 hk]
    have h1 : c4state L 1 =
        ⟨1, 0, 0, 4, [c4rec L 1 PS_IF], (noDepQueue L).drop 1⟩ := by
      simp [c4state, c4window]
    rw [h1]
    simp [c4rec_adv, hk, Nat.succ_le_iff]
  · -- t = 1
    have h1 : c4state L 1 =
        ⟨1, 0, 0, 4, [c4rec L 1 PS_IF], (noDepQueue L).drop 1⟩ := by
      simp [c4state, c4window]
    have h2 : c4state L 2 = ⟨2, 0, 0, 4,
        [c4rec L 2 PS_IF, c4rec L 1 PS_ID], (noDepQueue L).drop 2⟩ := by
      simp [c4state, c4window]
    rw [h1, processNextCycle_ramp1 1 0 0 _ _ rfl (c4_hq L 1), h2]
    by_cases hq : 1 < L.length
    · rw [noDepQueue_drop L 1 hq]
      simp [c4rec_adv, hreal 1 PS_IF le_rfl hk]
    · rw [noDepQueue_drop_nil L 1 (by omega),
        c4rec_bubble L 2 PS_IF (by omega),
        noDepQueue_drop_nil L 2 (by omega)]
      simp [c4rec_adv, hreal 1 PS_IF le_rfl hk]
  · -- t = 2
    have h2 : c4state L 2 = ⟨2, 0, 0, 4,
        [c4rec L 2 PS_IF, c4rec L 1 PS_ID], (noDepQueue L).drop 2⟩ := by
      simp [c4state, c4window]
    have h3 : c4state L 3 = ⟨3, 0, 0, 4,
        [c4rec L 3 PS_IF, c4rec L 2 PS_ID, c4rec L 1 PS_EX],
        (noDepQueue L).drop 3⟩ := by
      simp [c4state, c4window]
    rw [h2, processNextCycle_ramp2 2 0 0 _ _ _ rfl rfl rfl (c4_hq L 2), h3]
    by_cases hq : 2 < L.length
    · rw [noDepQueue_drop L 2 hq]
      simp [c4rec_adv, hreal 1 PS_IF le_rfl hk]
    · rw [noDepQueue_drop_nil L 2 (by omega),
        c4rec_bubble L 3 PS_IF (by omega),
        noDepQueue_drop_nil L 3 (by omega)]
      simp [c4rec_adv, hreal 1 PS_ID le_rfl hk]
  · -- t = 3
    have h3 : c4state L 3 = ⟨3, 0, 0, 4,
        [c4rec L 3 PS_IF, c4rec L 2 PS_ID, c4rec L 1 PS_EX],
        (noDepQueue L).drop 3⟩ := by
      simp [c4state, c4window]
    have h4 : c4state L 4 = ⟨4, 0, min 0 L.length, 4,
        [c4rec L 4 PS_IF, c4rec L 3 PS_ID, c4rec L 2 PS_EX,
         c4rec L 1 PS_WB], (noDepQueue L).drop 4⟩ := by
      simp [c4state, c4window]
    rw [h3,
      processNextCycle_ramp3 3 0 0 _ _ _ _ rfl rfl rfl rfl (c4_hq L 3), h4]
    by_cases hq : 3 < L.length
    · rw [noDepQueue_drop L 3 hq]
      simp [c4rec_adv, hreal 1 PS_IF le_rfl hk]
      omega
    · rw [noDepQueue_drop_nil L 3 (by omega),
        c4rec_bubble L 4 PS_IF (by omega),
        noDepQueue_drop_nil L 4 (by omega)]
      simp [c4rec_adv, hreal 1 PS_EX le_rfl hk]
      omega
  · -- t = n + 4: steady state
    have h4 : c4state L (n + 4) = ⟨n + 4, 0, min n L.length, 4,
        [c4rec L (n + 4) PS_IF, c4rec L (n + 3) PS_ID,
         c4rec L (n + 2) PS_EX, c4rec L (n + 1) PS_WB],
        (noDepQueue L).drop (n + 4)⟩ := by
      simp [c4state, c4window]
    have h5 : c4state L (n + 5) = ⟨n + 5, 0, min (n + 1) L.length, 4,
        [c4rec L (n + 5) PS_IF, c4rec L (n + 4) PS_ID,
         c4rec L (n + 3) PS_EX, c4rec L (n + 2) PS_WB],
        (noDepQueue L).drop (n + 5)⟩ := by
      have e1 : n + 5 = (n + 1) + 4 := by omega
      rw [e1]
      have e2 : n + 1 + 4 - 4 = n + 1 := by omega
      simp only [c4state, c4window, e2]
    have hcc : min n L.length + completedContrib (c4rec L (n + 1) PS_WB) =
        min (n + 1) L.length := by
      rw [completedContrib_c4rec L hL]
      by_cases hm : 1 ≤ n + 1 ∧ n + 1 ≤ L.length
      · rw [if_pos hm]
        omega
      · rw [if_neg hm]
        omega
    have hret : (!((noDepQueue L).drop (n + 4)).isEmpty ||
        !(c4rec L (n + 4) PS_IF).IsNOOP || !(c4rec L (n + 3) PS_ID).IsNOOP ||
        !(c4rec L (n + 2) PS_EX).IsNOOP) =
        decide (n + 5 ≤ L.length + 3) := by
      rw [c4rec_not_noop L hL, c4rec_not_noop L hL, c4rec_not_noop L hL]
      have hqe : (!((noDepQueue L).drop (n + 4)).isEmpty) =
          decide (n + 4 < L.length) := by
        by_cases hq : n + 4 < L.length
        · rw [noDepQueue_drop L (n + 4) hq]
          simp [hq]
        · rw [noDepQueue_drop_nil L (n + 4) (by omega)]
          simp [hq]
      rw [hqe]
      simp only [← Bool.decide_or]
      exact decide_eq_decide.mpr (by omega)
    rw [h4, processNextCycle_steady (n + 4) 0 (min n L.length) _ _ _ _ _
      rfl rfl rfl rfl rfl (c4_hq L (n + 4)), h5]
    by_cases hq : n + 4 < L.length
    · rw [noDepQueue_drop L (n + 4) hq]
      rw [noDepQueue_drop L (n + 4) hq] at hret
      simp only [List.tail_cons]
      rw [Prod.mk.injEq]
      refine ⟨?_, ?_⟩
      · rw [CPipelineSim.mk.injEq]
        refine ⟨rfl, rfl, hcc, rfl, ?_, rfl⟩
        simp [c4rec_adv]
      · simpa using hret
    · rw [noDepQueue_drop_nil L (n + 4) (by omega)]
      rw [noDepQueue_drop_nil L (n + 4) (by omega)] at hret
      rw [noDepQueue_drop_nil L (n + 5) (by omega)]
      rw [Prod.mk.injEq]
      refine ⟨?_, ?_⟩
      · rw [CPipelineSim.mk.injEq]
        refine ⟨rfl, rfl, hcc, rfl, ?_, rfl⟩
        rw [c4rec_bubble L (n + 5) PS_IF (by omega)]
        simp [c4rec_adv]
      · simpa using hret

lemma c4_run (L : List Char) (hL : ∀ c ∈ L, c ≠ NOOP_INSTRUCTION)
    (hk : 1 ≤ L.length) (t : Nat) :
    runSim (queuedSim (noDepQueue L)) t = c4state L t := by
  have h0 : queuedSim (noDepQueue L) = c4state L 0 := by
    rw [queuedSim_eq]
    simp [c4state, c4window, CPipelineSim.mk0]
  induction t with
  | zero => exact h0
  | succ t ih =>
    show stepSim (runSim (queuedSim (noDepQueue L)) t) = c4state L (t + 1)
    rw [ih]
    show (ProcessNextCycle (c4state L t)).1 = c4state L (t + 1)
    rw [c4_step L hL hk t]

/-- **C4.** For every k ≥ 1, queueing k instructions with no
data-dependence flags into a fresh simulator and calling
`ProcessNextCycle` repeatedly yields `true` on exactly the first k + 3
calls and `false` from call k + 4 on, with the stall counter 0 at every
point of the run. -/
theorem no_dependency_run (L : List Char)
    (hL : ∀ c ∈ L, c ≠ NOOP_INSTRUCTION) (hk : 1 ≤ L.length) :
    (∀ t, 1 ≤ t →
      callResult (queuedSim (noDepQueue L)) t = decide (t ≤ L.length + 3)) ∧
    ∀ t, (runSim (queuedSim (noDepQueue L)) t).GetStallCount = 0 := by
  constructor
  · intro t ht
    unfold callResult
    rw [c4_run L hL hk, c4_step L hL hk]
    have he : t - 1 + 1 = t := by omega
    rw [he]
  · intro t
    rw [c4_run L hL hk]
    rfl

/-- Witness for C4 at k = 2: calls 1..5 return true, call 6 returns
false, and the stall counter stays 0. -/
theorem no_dependency_run_witness :
    1 ≤ (['a', 'b'] : List Char).length ∧
    callResult (queuedSim (noDepQueue ['a', 'b'])) 5 = true ∧
    callResult (queuedSim (noDepQueue ['a', 'b'])) 6 = false ∧
    (runSim (queuedSim (noDepQueue ['a', 'b'])) 6).GetStallCount = 0 := by
  have h := no_dependency_run ['a', 'b'] (by decide) (by decide)
  refine ⟨by decide, ?_, ?_, h.2 6⟩
  · rw [h.1 5 (by norm_num)]
    decide
  · rw [h.1 6 (by norm_num)]
    decide

/-! ### Claim C5: a run of k chained instructions -/

/-- The record admitted by call `m` of the dependency-chain run: the `m`-th
queued instruction while the queue lasts (flagged data-dependent from the
second on), a NOOP bubble afterwards. -/
def c5rec (L : List Char) (m : Nat) (ps : PS_PIPELINE_STATE) :
    CInstructionData :=
  ⟨if 1 ≤ m ∧ m ≤ L.length then L.getD (m - 1) NOOP_INSTRUCTION
    else NOOP_INSTRUCTION, ps, decide (2 ≤ m ∧ m ≤ L.length)⟩

/-- Queue of instruction records with every instruction after the first
flagged data-dependent on its predecessor. -/
def c5queue (L : List Char) : List CInstructionData :=
  (List.range L.length).map
    (fun i => ⟨L.getD i NOOP_INSTRUCTION, PS_INVALID, decide (1 ≤ i)⟩)

/-- Pipeline contents right after the `j`-th stall cycle (call 2j + 2). -/
def c5pipeB (L : List Char) (j : Nat) : List CInstructionData :=
  [c5rec L (j + 3) PS_INVALID, c5rec L (j + 2) PS_IF,
   c4rec L (j + 1) PS_ID, CNoopInstruction PS_EX, c4rec L j PS_WB]

/-- Pipeline contents one call after the `j`-th stall (call 2j + 3). -/
def c5pipeB' (L : List Char) (j : Nat) : List CInstructionData :=
  [c5rec L (j + 3) PS_IF, c5rec L (j + 2) PS_ID,
   c4rec L (j + 1) PS_EX, CNoopInstruction PS_WB]

/-- Full simulator state after `t` calls of the dependency-chain run
(for at least two instructions). -/
def c5state (L : List Char) (t : Nat) : CPipelineSim :=
  if t = 0 then ⟨0, 0, 0, 4, [], c5queue L⟩
  else if t = 1 then ⟨1, 0, 0, 4, [c4rec L 1 PS_IF], (c5queue L).drop 1⟩
  else if t = 2 then
    ⟨2, 0, 0, 4, [c5rec L 2 PS_IF, c4rec L 1 PS_ID], (c5queue L).drop 2⟩
  else if t = 3 then
    ⟨3, 0, 0, 4, [c5rec L 3 PS_IF, c5rec L 2 PS_ID, c4rec L 1 PS_EX],
      (c5queue L).drop 3⟩
  else if t ≤ 2 * L.length + 1 then
    if t % 2 = 0 then
      ⟨t, (t - 2) / 2, (t - 2) / 2 - 1, 4, c5pipeB L ((t - 2) / 2),
        (c5queue L).drop ((t - 2) / 2 + 3)⟩
    else
      ⟨t, (t - 2) / 2, (t - 2) / 2, 4, c5pipeB' L ((t - 2) / 2),
        (c5queue L).drop ((t - 2) / 2 + 3)⟩
  else if t = 2 * L.length + 2 then
    ⟨t, L.length - 1, L.length - 1, 4,
      [CNoopInstruction PS_IF, CNoopInstruction PS_ID,
       CNoopInstruction PS_EX, c4rec L L.length PS_WB], []⟩
  else
    ⟨t, L.length - 1, L.length, 4,
      [CNoopInstruction PS_IF, CNoopInstruction PS_ID,
       CNoopInstruction PS_EX, CNoopInstruction PS_WB], []⟩

lemma c5rec_state (L : List Char) (m : Nat) (ps : PS_PIPELINE_STATE) :
    (c5rec L m ps).m_psState = ps := rfl

lemma c5rec_flag (L : List Char) (m : Nat) (ps : PS_PIPELINE_STATE) :
    (c5rec L m ps).m_bDataDependent = decide (2 ≤ m ∧ m ≤ L.length) := rfl

lemma c5rec_adv (L : List Char) (m : Nat) (ps ps' : PS_PIPELINE_STATE) :
    ({ c5rec L m ps with m_psState := ps' } : CInstructionData) =
      c5rec L m ps' := rfl

lemma c5rec_clear (L : List Char) (m : Nat) (ps : PS_PIPELINE_STATE) :
    ({ c5rec L m ps with m_bDataDependent := false } : CInstructionData) =
      c4rec L m ps := rfl

lemma c5rec_one (L : List Char) (ps : PS_PIPELINE_STATE) :
    c5rec L 1 ps = c4rec L 1 ps := by
  simp [c5rec, c4rec]

lemma c5rec_not_noop (L : List Char) (hL : ∀ c ∈ L, c ≠ NOOP_INSTRUCTION)
    (m : Nat) (ps : PS_PIPELINE_STATE) :
    (!(c5rec L m ps).IsNOOP) = decide (1 ≤ m ∧ m ≤ L.length) := by
  unfold c5rec CInstructionData.IsNOOP
  by_cases h : 1 ≤ m ∧ m ≤ L.length
  · have hlt : m - 1 < L.length := by omega
    simp only [if_pos h]
    rw [List.getD_eq_getElem?_getD, List.getElem?_eq_getElem hlt,
      Option.getD_some]
    simp [hL _ (List.getElem_mem hlt), h]
  · simp [if_neg h, h]

lemma c5rec_bubble (L : List Char) (m : Nat) (ps : PS_PIPELINE_STATE)
    (h : L.length < m) : c5rec L m ps = CNoopInstruction ps := by
  have h1 : ¬ (1 ≤ m ∧ m ≤ L.length) := by omega
  have h2 : ¬ (2 ≤ m ∧ m ≤ L.length) := by omega
  simp [c5rec, h1, h2, CNoopInstruction]

lemma c5queue_state (L : List Char) :
    ∀ r ∈ c5queue L, r.m_psState = PS_INVALID := by
  intro r hr
  simp only [c5queue, List.mem_map] at hr
  obtain ⟨i, _, rfl⟩ := hr
  rfl

lemma c5queue_drop (L : List Char) (t : Nat) (ht : t < L.length) :
    (c5queue L).drop t =
      c5rec L (t + 1) PS_INVALID :: (c5queue L).drop (t + 1) := by
  have hlen : t < (c5queue L).length := by simpa [c5queue] using ht
  rw [List.drop_eq_getElem_cons hlen]
  congr 1
  have hrt : t < (List.range L.length).length := by simpa using ht
  have : (c5queue L)[t] =
      ⟨L.getD (List.range L.length)[t] NOOP_INSTRUCTION, PS_INVALID,
        decide (1 ≤ (List.range L.length)[t])⟩ := by
    simp [c5queue]
  rw [this]
  have hr : (List.range L.length)[t] = t := by simp
  rw [hr]
  have h1 : 1 ≤ t + 1 ∧ t + 1 ≤ L.length := by omega
  have h2 : (decide (1 ≤ t)) = decide (2 ≤ t + 1 ∧ t + 1 ≤ L.length) :=
    decide_eq_decide.mpr (by omega)
  simp only [c5rec, if_pos h1, Nat.add_sub_cancel, h2]

lemma c5queue_drop_nil (L : List Char) (t : Nat) (ht : L.length ≤ t) :
    (c5queue L).drop t = [] :=
  List.drop_eq_nil_of_le (by simpa [c5queue] using ht)

lemma c5_hq (L : List Char) (t : Nat) :
    ∀ r ∈ ((c5queue L).drop t).take 1, r.m_psState = PS_INVALID :=
  fun r hr =>
    c5queue_state L r (List.mem_of_mem_drop (List.mem_of_mem_take hr))

lemma CNoop_adv (ps ps' : PS_PIPELINE_STATE) :
    ({ CNoopInstruction ps with m_psState := ps' } : CInstructionData) =
      CNoopInstruction ps' := rfl

lemma c5_step (L : List Char) (hL : ∀ c ∈ L, c ≠ NOOP_INSTRUCTION)
    (hk2 : 2 ≤ L.length) (t : Nat) :
    ProcessNextCycle (c5state L t) =
      (c5state L (t + 1), decide (t + 1 ≤ 2 * L.length + 2)) := by
  by_cases h0 : t = 0
  · subst h0
    have hs0 : c5state L 0 = ⟨0, 0, 0, 4, [], c5queue L⟩ := by
      simp [c5state]
    have hs1 : c5state L 1 =
        ⟨1, 0, 0, 4, [c4rec L 1 PS_IF], (c5queue L).drop 1⟩ := by
      simp [c5state]
    have hd : c5queue L = c5rec L 1 PS_INVALID :: (c5queue L).drop 1 := by
      have h := c5queue_drop L 0 (by omega)
      simpa using h
    rw [hs0, processNextCycle_ramp0 0 0 0 _
      (fun r hr => c5queue_state L r (List.mem_of_mem_take hr)), hs1]
    rw [Prod.mk.injEq]
    refine ⟨?_, ?_⟩
    · rw [CPipelineSim.mk.injEq]
      refine ⟨rfl, rfl, rfl, rfl, ?_, ?_⟩
      · rw [hd, admittedIF_cons, c5rec_adv, c5rec_one]
      · rw [hd]
        simp
    · rw [hd]
      simp
  by_cases h1 : t = 1
  · subst h1
    have hs1 : c5state L 1 =
        ⟨1, 0, 0, 4, [c4rec L 1 PS_IF], (c5queue L).drop 1⟩ := by
      simp [c5state]
    have hs2 : c5state L 2 = ⟨2, 0, 0, 4,
        [c5rec L 2 PS_IF, c4rec L 1 PS_ID], (c5queue L).drop 2⟩ := by
      simp [c5state]
    rw [hs1, processNextCycle_ramp1 1 0 0 _ _ rfl (c5_hq L 1), hs2]
    rw [c5queue_drop L 1 (by omega)]
    simp [c5rec_adv, c4rec_adv]
  by_cases h2 : t = 2
  · subst h2
    have hs2 : c5state L 2 = ⟨2, 0, 0, 4,
        [c5rec L 2 PS_IF, c4rec L 1 PS_ID], (c5queue L).drop 2⟩ := by
      simp [c5state]
    have hs3 : c5state L 3 = ⟨3, 0, 0, 4,
        [c5rec L 3 PS_IF, c5rec L 2 PS_ID, c4rec L 1 PS_EX],
        (c5queue L).drop 3⟩ := by
      simp [c5state]
    rw [hs2, processNextCycle_ramp2 2 0 0 _ _ _ rfl rfl rfl (c5_hq L 2),
      hs3]
    have hw2 : (!(c5rec L 2 PS_IF).IsNOOP) = true := by
      rw [c5rec_not_noop L hL]
      simp
      omega
    by_cases hq : 2 < L.length
    · rw [c5queue_drop L 2 hq]
      simp [c5rec_adv, c4rec_adv, hw2]
      omega
    · rw [c5queue_drop_nil L 2 (by omega), c5rec_bubble L 3 PS_IF (by omega),
        c5queue_drop_nil L 3 (by omega)]
      simp [c5rec_adv, c4rec_adv, hw2]
      omega
  by_cases h3 : t = 3
  · subst h3
    have hs3 : c5state L 3 = ⟨3, 0, 0, 4,
        [c5rec L 3 PS_IF, c5rec L 2 PS_ID, c4rec L 1 PS_EX],
        (c5queue L).drop 3⟩ := by
      simp [c5state]
    have hs4 : c5state L 4 =
        ⟨4, 1, 0, 4, c5pipeB L 1, (c5queue L).drop 4⟩ := by
      have h45 : (4 : Nat) ≤ 2 * L.length + 1 := by omega
      simp [c5state, h45]
    have hxf : (c5rec L 2 PS_ID).m_bDataDependent = true := by
      rw [c5rec_flag]
      simp
      omega
    have hx2 : (!(c5rec L 2 PS_ID).IsNOOP) = true := by
      rw [c5rec_not_noop L hL]
      simp
      omega
    rw [hs3, processNextCycle_stall3 3 0 0 _ _ _ _ rfl rfl hxf rfl, hs4]
    simp only [c5pipeB, c5rec_clear, c4rec_adv]
    by_cases hq : 3 < L.length
    · rw [c5queue_drop L 3 hq]
      simp [hx2]
      omega
    · rw [c5queue_drop_nil L 3 (by omega),
        c5rec_bubble L 4 PS_INVALID (by omega),
        c5queue_drop_nil L 4 (by omega)]
      simp [hx2]
      omega
  by_cases hmid : t ≤ 2 * L.length + 1
  · rcases Nat.even_or_odd t with he | ho
    · -- t = 2j + 2, j ≥ 1: un-stalled full-pipeline cycle
      obtain ⟨m, hm⟩ := he
      obtain ⟨j, hj1, rfl⟩ : ∃ j, 1 ≤ j ∧ t = 2 * j + 2 :=
        ⟨(t - 2) / 2, by omega, by omega⟩
      have hjk : j + 1 ≤ L.length := by omega
      have hsB : c5state L (2 * j + 2) =
          ⟨2 * j + 2, j, j - 1, 4, c5pipeB L j,
            (c5queue L).drop (j + 3)⟩ := by
        have e7 : (2 * j + 2 - 2) / 2 = j := by omega
        simp only [c5state, if_neg (show ¬ (2 * j + 2 = 0) by omega),
          if_neg (show ¬ (2 * j + 2 = 1) by omega),
          if_neg (show ¬ (2 * j + 2 = 2) by omega),
          if_neg (show ¬ (2 * j + 2 = 3) by omega),
          if_pos (show 2 * j + 2 ≤ 2 * L.length + 1 from hmid),
          if_pos (show (2 * j + 2) % 2 = 0 by omega), e7]
      have hsB' : c5state L (2 * j + 3) =
          ⟨2 * j + 3, j, j, 4, c5pipeB' L j,
            (c5queue L).drop (j + 3)⟩ := by
        have e7 : (2 * j + 3 - 2) / 2 = j := by omega
        simp only [c5state, if_neg (show ¬ (2 * j + 3 = 0) by omega),
          if_neg (show ¬ (2 * j + 3 = 1) by omega),
          if_neg (show ¬ (2 * j + 3 = 2) by omega),
          if_neg (show ¬ (2 * j + 3 = 3) by omega),
          if_pos (show 2 * j + 3 ≤ 2 * L.length + 1 by omega),
          if_neg (show ¬ ((2 * j + 3) % 2 = 0) by omega), e7]
      have hcc : j - 1 + completedContrib (c4rec L j PS_WB) = j := by
        rw [completedContrib_c4rec L hL]
        rw [if_pos (show 1 ≤ j ∧ j ≤ L.length by omega)]
        omega
      have hx5 : (!(c4rec L (j + 1) PS_ID).IsNOOP) = true := by
        rw [c4rec_not_noop L hL]
        simp
        omega
      rw [hsB]
      simp only [c5pipeB]
      rw [processNextCycle_full5 (2 * j + 2) j (j - 1) _ _ _ _ _ _
        rfl rfl rfl rfl rfl rfl]
      rw [show 2 * j + 2 + 1 = 2 * j + 3 from rfl, hsB']
      simp only [c5pipeB', c5rec_adv, c4rec_adv, CNoop_adv]
      simp [hcc, hx5]
      omega
    · -- t = 2j + 3, j ≥ 1: stall (j ≤ k - 2) or chain drained (j = k - 1)
      obtain ⟨m, hm⟩ := ho
      obtain ⟨j, hj1, rfl⟩ : ∃ j, 1 ≤ j ∧ t = 2 * j + 3 :=
        ⟨(t - 2) / 2, by omega, by omega⟩
      have hjk : j + 1 ≤ L.length := by omega
      have hsB' : c5state L (2 * j + 3) =
          ⟨2 * j + 3, j, j, 4, c5pipeB' L j,
            (c5queue L).drop (j + 3)⟩ := by
        have e7 : (2 * j + 3 - 2) / 2 = j := by omega
        simp only [c5state, if_neg (show ¬ (2 * j + 3 = 0) by omega),
          if_neg (show ¬ (2 * j + 3 = 1) by omega),
          if_neg (show ¬ (2 * j + 3 = 2) by omega),
          if_neg (show ¬ (2 * j + 3 = 3) by omega),
          if_pos (show 2 * j + 3 ≤ 2 * L.length + 1 from hmid),
          if_neg (show ¬ ((2 * j + 3) % 2 = 0) by omega), e7]
      by_cases hlast : j + 2 ≤ L.length
      · -- stall number j + 1
        have hsB2 : c5state L (2 * j + 4) =
            ⟨2 * j + 4, j + 1, j, 4, c5pipeB L (j + 1),
              (c5queue L).drop (j + 4)⟩ := by
          have e7 : (2 * j + 4 - 2) / 2 = j + 1 := by omega
          have e8 : j + 1 - 1 = j := by omega
          simp only [c5state, if_neg (show ¬ (2 * j + 4 = 0) by omega),
            if_neg (show ¬ (2 * j + 4 = 1) by omega),
            if_neg (show ¬ (2 * j + 4 = 2) by omega),
            if_neg (show ¬ (2 * j + 4 = 3) by omega),
            if_pos (show 2 * j + 4 ≤ 2 * L.length + 1 by omega),
            if_pos (show (2 * j + 4) % 2 = 0 by omega), e7, e8]
        have hxf : (c5rec L (j + 2) PS_ID).m_bDataDependent = true := by
          rw [c5rec_flag]
          simp
          omega
        have hx2 : (!(c5rec L (j + 2) PS_ID).IsNOOP) = true := by
          rw [c5rec_not_noop L hL]
          simp
          omega
        rw [hsB']
        simp only [c5pipeB']
        rw [processNextCycle_stall4 (2 * j + 3) j j _ _ _ _ _
          rfl rfl hxf rfl rfl]
        rw [show 2 * j + 3 + 1 = 2 * j + 4 from rfl, hsB2]
        simp only [c5pipeB, c5rec_clear, c4rec_adv, completedContrib_bubble]
        by_cases hq : j + 3 < L.length
        · rw [c5queue_drop L (j + 3) hq]
          simp [hx2]
          omega
        · rw [c5queue_drop_nil L (j + 3) (by omega),
            c5rec_bubble L (j + 4) PS_INVALID (by omega),
            c5queue_drop_nil L (j + 4) (by omega)]
          simp [hx2]
          omega
      · -- j = k - 1: the flag of the bubble record is clear, no stall
        have hjlast : j = L.length - 1 := by omega
        have hsC : c5state L (2 * L.length + 2) =
            ⟨2 * L.length + 2, L.length - 1, L.length - 1, 4,
              [CNoopInstruction PS_IF, CNoopInstruction PS_ID,
               CNoopInstruction PS_EX, c4rec L L.length PS_WB], []⟩ := by
          simp only [c5state,
            if_neg (show ¬ (2 * L.length + 2 = 0) by omega),
            if_neg (show ¬ (2 * L.length + 2 = 1) by omega),
            if_neg (show ¬ (2 * L.length + 2 = 2) by omega),
            if_neg (show ¬ (2 * L.length + 2 = 3) by omega),
            if_neg (show ¬ (2 * L.length + 2 ≤ 2 * L.length + 1) by omega),
            eq_self_iff_true, if_true]
        have hxf : (c5rec L (j + 2) PS_ID).m_bDataDependent = false := by
          rw [c5rec_flag]
          simp
          omega
        have hy2 : (!(c4rec L (j + 1) PS_EX).IsNOOP) = true := by
          rw [c4rec_not_noop L hL]
          simp
          omega
        rw [hsB']
        simp only [c5pipeB']
        rw [processNextCycle_steady (2 * j + 3) j j _ _ _ _ _
          rfl rfl hxf rfl rfl (c5_hq L (j + 3))]
        rw [show 2 * j + 3 + 1 = 2 * j + 4 from rfl]
        rw [show (2 : Nat) * j + 4 = 2 * L.length + 2 by omega, hsC]
        rw [c5queue_drop_nil L (j + 3) (by omega)]
        simp only [admittedIF_nil, c5rec_adv, c4rec_adv, CNoop_adv,
          completedContrib_bubble, List.tail_nil]
        rw [c5rec_bubble L (j + 3) PS_ID (by omega),
          c5rec_bubble L (j + 2) PS_EX (by omega),
          show j + 1 = L.length by omega]
        have hy3 : (c4rec L L.length PS_EX).IsNOOP = false := by
          have h := c4rec_not_noop L hL L.length PS_EX
          simp [show 1 ≤ L.length ∧ L.length ≤ L.length by omega] at h
          simpa using h
        simp [hy3]
        exact hjlast
  by_cases hend : t = 2 * L.length + 2
  · subst hend
    have hsC : c5state L (2 * L.length + 2) =
        ⟨2 * L.length + 2, L.length - 1, L.length - 1, 4,
          [CNoopInstruction PS_IF, CNoopInstruction PS_ID,
           CNoopInstruction PS_EX, c4rec L L.length PS_WB], []⟩ := by
      simp only [c5state,
        if_neg (show ¬ (2 * L.length + 2 = 0) by omega),
        if_neg (show ¬ (2 * L.length + 2 = 1) by omega),
        if_neg (show ¬ (2 * L.length + 2 = 2) by omega),
        if_neg (show ¬ (2 * L.length + 2 = 3) by omega),
        if_neg (show ¬ (2 * L.length + 2 ≤ 2 * L.length + 1) by omega),
        eq_self_iff_true, if_true]
    have hsD : c5state L (2 * L.length + 3) =
        ⟨2 * L.length + 3, L.length - 1, L.length, 4,
          [CNoopInstruction PS_IF, CNoopInstruction PS_ID,
           CNoopInstruction PS_EX, CNoopInstruction PS_WB], []⟩ := by
      simp only [c5state,
        if_neg (show ¬ (2 * L.length + 3 = 0) by omega),
        if_neg (show ¬ (2 * L.length + 3 = 1) by omega),
        if_neg (show ¬ (2 * L.length + 3 = 2) by omega),
        if_neg (show ¬ (2 * L.length + 3 = 3) by omega),
        if_neg (show ¬ (2 * L.length + 3 ≤ 2 * L.length + 1) by omega),
        if_neg (show ¬ (2 * L.length + 3 = 2 * L.length + 2) by omega)]
    have hcc : L.length - 1 +
        completedContrib (c4rec L L.length PS_WB) = L.length := by
      rw [completedContrib_c4rec L hL]
      rw [if_pos (show 1 ≤ L.length ∧ L.length ≤ L.length by omega)]
      omega
    rw [hsC, processNextCycle_steady (2 * L.length + 2) (L.length - 1)
      (L.length - 1) _ _ _ _ _ rfl rfl rfl rfl rfl
      (by intro r hr; simp at hr)]
    rw [show 2 * L.length + 2 + 1 = 2 * L.length + 3 from rfl, hsD]
    simp [hcc]
    exact ⟨rfl, rfl, rfl⟩
  · -- t ≥ 2k + 3: drained fixpoint
    have hsD : ∀ u, 2 * L.length + 2 < u → c5state L u =
        ⟨u, L.length - 1, L.length, 4,
          [CNoopInstruction PS_IF, CNoopInstruction PS_ID,
           CNoopInstruction PS_EX, CNoopInstruction PS_WB], []⟩ := by
      intro u hu
      simp only [c5state, if_neg (show ¬ (u = 0) by omega),
        if_neg (show ¬ (u = 1) by omega),
        if_neg (show ¬ (u = 2) by omega),
        if_neg (show ¬ (u = 3) by omega),
        if_neg (show ¬ (u ≤ 2 * L.length + 1) by omega),
        if_neg (show ¬ (u = 2 * L.length + 2) by omega)]
    rw [hsD t (by omega), processNextCycle_steady t (L.length - 1)
      L.length _ _ _ _ _ rfl rfl rfl rfl rfl
      (by intro r hr; simp at hr), hsD (t + 1) (by omega)]
    simp
    exact ⟨⟨rfl, rfl, rfl⟩, by omega⟩

lemma c5_run (L : List Char) (hL : ∀ c ∈ L, c ≠ NOOP_INSTRUCTION)
    (hk2 : 2 ≤ L.length) (t : Nat) :
    runSim (queuedSim (c5queue L)) t = c5state L t := by
  have h0 : queuedSim (c5queue L) = c5state L 0 := by
    rw [queuedSim_eq]
    simp [c5state, CPipelineSim.mk0]
  induction t with
  | zero => exact h0
  | succ t ih =>
    show stepSim (runSim (queuedSim (c5queue L)) t) = c5state L (t + 1)
    rw [ih]
    show (ProcessNextCycle (c5state L t)).1 = c5state L (t + 1)
    rw [c5_step L hL hk2 t]

lemma c5queue_one (L : List Char) (h : L.length = 1) :
    c5queue L = noDepQueue L := by
  rcases L with _ | ⟨c, L'⟩
  · simp at h
  · rcases L' with _ | ⟨d, L''⟩
    · simp [c5queue, noDepQueue, List.range_succ]
    · simp at h

/-- **C5.** For every k ≥ 1, queueing k instructions with every
instruction after the first flagged data-dependent into a fresh simulator
makes `ProcessNextCycle` return `true` on exactly the first 2k + 2 calls
(the run finishes in k + 3 + (k − 1) cycles), and once the chain has
drained the stall counter equals k − 1. -/
theorem dependency_chain_run (L : List Char)
    (hL : ∀ c ∈ L, c ≠ NOOP_INSTRUCTION) (hk : 1 ≤ L.length) :
    (∀ t, 1 ≤ t → callResult (queuedSim (c5queue L)) t =
      decide (t ≤ 2 * L.length + 2)) ∧
    ∀ t, 2 * L.length + 1 ≤ t →
      (runSim (queuedSim (c5queue L)) t).GetStallCount = L.length - 1 := by
  by_cases hk2 : 2 ≤ L.length
  · constructor
    · intro t ht
      unfold callResult
      rw [c5_run L hL hk2, c5_step L hL hk2]
      rw [show t - 1 + 1 = t by omega]
    · intro t htt
      rw [c5_run L hL hk2]
      show (c5state L t).m_dwStallCtr = L.length - 1
      have hn0 : ¬ (t = 0) := by omega
      have hn1 : ¬ (t = 1) := by omega
      have hn2 : ¬ (t = 2) := by omega
      have hn3 : ¬ (t = 3) := by omega
      by_cases hmid : t ≤ 2 * L.length + 1
      · have hteq : t = 2 * L.length + 1 := by omega
        subst hteq
        simp only [c5state, if_neg hn0, if_neg hn1, if_neg hn2, if_neg hn3,
          if_pos (show 2 * L.length + 1 ≤ 2 * L.length + 1 from le_rfl),
          if_neg (show ¬ ((2 * L.length + 1) % 2 = 0) by omega)]
        omega
      · by_cases hend : t = 2 * L.length + 2
        · simp only [c5state, if_neg hn0, if_neg hn1, if_neg hn2,
            if_neg hn3, if_neg hmid, if_pos hend]
        · simp only [c5state, if_neg hn0, if_neg hn1, if_neg hn2,
            if_neg hn3, if_neg hmid, if_neg hend]
  · have hk1 : L.length = 1 := by omega
    rw [c5queue_one L hk1]
    constructor
    · intro t ht
      unfold callResult
      rw [c4_run L hL hk, c4_step L hL hk]
      rw [show t - 1 + 1 = t by omega]
      exact decide_eq_decide.mpr (by omega)
    · intro t htt
      rw [c4_run L hL hk]
      show 0 = L.length - 1
      omega

/-- Witness for C5 at k = 3: calls 1..8 return true, call 9 returns
false, and the stall counter ends at 2. -/
theorem dependency_chain_run_witness :
    1 ≤ (['a', 'b', 'c'] : List Char).length ∧
    callResult (queuedSim (c5queue ['a', 'b', 'c'])) 8 = true ∧
    callResult (queuedSim (c5queue ['a', 'b', 'c'])) 9 = false ∧
    (runSim (queuedSim (c5queue ['a', 'b', 'c'])) 9).GetStallCount = 2 := by
  have h := dependency_chain_run ['a', 'b', 'c'] (by decide) (by decide)
  refine ⟨by decide, ?_, ?_, ?_⟩
  · rw [h.1 8 (by norm_num)]
    decide
  · rw [h.1 9 (by norm_num)]
    decide
  · have h2 := h.2 9 (by norm_num)
    simpa using h2

/-! ### Claim C3: canonical abstraction of the pipeline state -/

/-- Canonicalize a record: keep only whether it is a NOOP, its stage and
its flag. -/
def canonRec (r : CInstructionData) : CInstructionData :=
  ⟨if r.IsNOOP then NOOP_INSTRUCTION else 'x', r.m_psState,
    r.m_bDataDependent⟩

/-- Canonicalize a pipeline. -/
def canonPipe (l : List CInstructionData) : List CInstructionData :=
  l.map canonRec

/-- The flag of the queue front, if any. -/
def headFlag (q : List CInstructionData) : Bool :=
  match q with
  | r :: _ => r.m_bDataDependent
  | [] => false

/-- The abstract one-record-queue state driving one canonical cycle. -/
def absSim (p : List CInstructionData) (qn fl : Bool) : CPipelineSim :=
  ⟨0, 0, 0, 4, p, if qn then [⟨'x', PS_INVALID, fl⟩] else []⟩

lemma canonRec_state (r : CInstructionData) :
    (canonRec r).m_psState = r.m_psState := rfl

lemma canonRec_flag (r : CInstructionData) :
    (canonRec r).m_bDataDependent = r.m_bDataDependent := rfl

lemma canonRec_IsNOOP (r : CInstructionData) :
    (canonRec r).IsNOOP = r.IsNOOP := by
  cases hn : r.IsNOOP
  · have hn2 : ¬ r.m_Instruction = NOOP_INSTRUCTION := by
      simpa [CInstructionData.IsNOOP] using hn
    simp [canonRec, CInstructionData.IsNOOP, hn, hn2]
    decide
  · have hn2 : r.m_Instruction = NOOP_INSTRUCTION := by
      simpa [CInstructionData.IsNOOP] using hn
    simp [canonRec, CInstructionData.IsNOOP, hn, hn2]

lemma canonRec_stallsAt (r : CInstructionData) :
    stallsAt (canonRec r) = stallsAt r := rfl

lemma canonRec_bReturnContrib (r : CInstructionData) :
    bReturnContrib (canonRec r) = bReturnContrib r := by
  unfold bReturnContrib
  rw [canonRec_IsNOOP, canonRec_state]

lemma canonRec_completedContrib (r : CInstructionData) :
    completedContrib (canonRec r) = completedContrib r := by
  unfold completedContrib
  rw [canonRec_IsNOOP, canonRec_state]

lemma canonRec_GetState (r : CInstructionData) :
    (canonRec r).GetState = r.GetState := rfl

lemma canonRec_adv (r : CInstructionData) :
    canonRec (advRecord r) = advRecord (canonRec r) := by
  obtain ⟨i, st, f⟩ := r
  cases st <;>
    simp [advRecord, canonRec, CInstructionData.IsNOOP]

lemma canonRec_clear (r : CInstructionData) :
    canonRec { r with m_bDataDependent := false } =
      { canonRec r with m_bDataDependent := false } := rfl

lemma canonRec_bubble (ps : PS_PIPELINE_STATE) :
    canonRec (CNoopInstruction ps) = CNoopInstruction ps := by
  simp [canonRec, CNoopInstruction, CInstructionData.IsNOOP]

lemma canonRec_flagNat (r : CInstructionData) :
    flagNat (canonRec r) = flagNat r := rfl

lemma canonPipe_flags (l : List CInstructionData) :
    flagsList (canonPipe l) = flagsList l := by
  induction l with
  | nil => rfl
  | cons r rest ih =>
    simp only [canonPipe, List.map_cons, flagsList, List.sum_cons,
      canonRec_flagNat] at ih ⊢
    omega

lemma canonPipe_length (l : List CInstructionData) :
    (canonPipe l).length = l.length := by
  simp [canonPipe]

lemma advanceLoop_canon (l : List CInstructionData) :
    advanceLoop (canonPipe l) =
      ⟨canonPipe (advanceLoop l).records, (advanceLoop l).bReturn,
       (advanceLoop l).completedInc, (advanceLoop l).bStalled⟩ := by
  induction l with
  | nil => rfl
  | cons r rest ih =>
    show advanceLoop (canonRec r :: canonPipe rest) = _
    by_cases hs : stallsAt r = true
    · rw [advanceLoop_cons_stall _ _ (by rw [canonRec_stallsAt]; exact hs),
        advanceLoop_cons_stall r rest hs]
      rw [PassResult.mk.injEq]
      refine ⟨?_, by rw [canonRec_IsNOOP], rfl, rfl⟩
      simp only [canonPipe, List.map_cons, canonRec_bubble]
      rw [canonRec_clear]
    · have hs2 : stallsAt r = false := eq_false_of_ne_true hs
      rw [advanceLoop_cons_nostall _ _ (by rw [canonRec_stallsAt]; exact hs2),
        advanceLoop_cons_nostall r rest hs2, ih]
      rw [PassResult.mk.injEq]
      refine ⟨?_, by rw [canonRec_bReturnContrib],
        by rw [canonRec_completedContrib], rfl⟩
      simp only [canonPipe, List.map_cons]
      rw [canonRec_adv]

lemma admit_canon (s : CPipelineSim) (hd : s.m_dwMaxPipelineDepth = 4)
    (hq : ∀ r ∈ s.m_queInstructions,
      r.m_psState = PS_INVALID ∧ r.IsNOOP = false) :
    (admitStep (absSim (canonPipe s.m_lstInstructionPipeline)
      (!s.m_queInstructions.isEmpty)
      (headFlag s.m_queInstructions))).pipeline =
      canonPipe (admitStep s).pipeline ∧
    (admitStep (absSim (canonPipe s.m_lstInstructionPipeline)
      (!s.m_queInstructions.isEmpty)
      (headFlag s.m_queInstructions))).bReturn =
      (admitStep s).bReturn := by
  rcases hqe : s.m_queInstructions with _ | ⟨r, rest⟩
  · unfold admitStep absSim
    rw [hqe, hd]
    by_cases hlen : s.m_lstInstructionPipeline.length ≤ 4
    · rw [if_pos (by simpa [canonPipe_length] using hlen), if_pos hlen]
      constructor
      · show CNoopInstruction PS_INVALID :: canonPipe _ = _
        simp [canonPipe, canonRec_bubble]
      · rfl
    · rw [if_neg (by simpa [canonPipe_length] using hlen), if_neg hlen]
      exact ⟨rfl, rfl⟩
  · obtain ⟨hr1, hr2⟩ := hq r (by rw [hqe]; exact List.mem_cons_self r rest)
    have hcr : canonRec r = ⟨'x', PS_INVALID, r.m_bDataDependent⟩ := by
      unfold canonRec
      rw [hr1, hr2]
      simp
    unfold admitStep absSim
    rw [hqe, hd]
    by_cases hlen : s.m_lstInstructionPipeline.length ≤ 4
    · rw [if_pos (by simpa [canonPipe_length] using hlen), if_pos hlen]
      constructor
      · show (⟨'x', PS_INVALID, headFlag (r :: rest)⟩ : CInstructionData) ::
            canonPipe _ = _
        simp only [canonPipe, List.map_cons, hcr, headFlag]
      · rfl
    · rw [if_neg (by simpa [canonPipe_length] using hlen), if_neg hlen]
      exact ⟨rfl, rfl⟩

lemma canon_step (s : CPipelineSim) (hd : s.m_dwMaxPipelineDepth = 4)
    (hq : ∀ r ∈ s.m_queInstructions,
      r.m_psState = PS_INVALID ∧ r.IsNOOP = false) :
    canonPipe (stepSim s).m_lstInstructionPipeline =
      (ProcessNextCycle (absSim (canonPipe s.m_lstInstructionPipeline)
        (!s.m_queInstructions.isEmpty)
        (headFlag s.m_queInstructions))).1.m_lstInstructionPipeline ∧
    (ProcessNextCycle s).2 =
      (ProcessNextCycle (absSim (canonPipe s.m_lstInstructionPipeline)
        (!s.m_queInstructions.isEmpty)
        (headFlag s.m_queInstructions))).2 ∧
    (stepSim s).m_dwStallCtr = s.m_dwStallCtr +
      (ProcessNextCycle (absSim (canonPipe s.m_lstInstructionPipeline)
        (!s.m_queInstructions.isEmpty)
        (headFlag s.m_queInstructions))).1.m_dwStallCtr := by
  obtain ⟨hap, har⟩ := admit_canon s hd hq
  have hpass : advanceLoop ((admitStep (absSim
      (canonPipe s.m_lstInstructionPipeline)
      (!s.m_queInstructions.isEmpty)
      (headFlag s.m_queInstructions))).pipeline.reverse) =
      ⟨canonPipe (advanceLoop (admitStep s).pipeline.reverse).records,
       (advanceLoop (admitStep s).pipeline.reverse).bReturn,
       (advanceLoop (admitStep s).pipeline.reverse).completedInc,
       (advanceLoop (admitStep s).pipeline.reverse).bStalled⟩ := by
    rw [hap]
    show advanceLoop ((List.map canonRec _).reverse) = _
    rw [← List.map_reverse]
    exact advanceLoop_canon _
  refine ⟨?_, ?_, ?_⟩
  · show canonPipe (ProcessNextCycle s).1.m_lstInstructionPipeline = _
    simp only [ProcessNextCycle]
    rw [hpass]
    rcases hrec : (advanceLoop (admitStep s).pipeline.reverse).records with
      _ | ⟨b, brest⟩
    · rfl
    · show canonPipe (match (b :: brest) with
        | b :: rest => if b.GetState = PS_COMPLETED then rest else b :: rest
        | [] => []).reverse = (match (canonRec b :: canonPipe brest) with
        | b :: rest => if b.GetState = PS_COMPLETED then rest else b :: rest
        | [] => []).reverse
      dsimp only
      rw [canonRec_GetState]
      by_cases hb : b.GetState = PS_COMPLETED
      · rw [if_pos hb, if_pos hb]
        show canonPipe brest.reverse = (canonPipe brest).reverse
        simp [canonPipe]
      · rw [if_neg hb, if_neg hb]
        show canonPipe (b :: brest).reverse =
          (canonRec b :: canonPipe brest).reverse
        simp [canonPipe]
  · show ((admitStep s).bReturn ||
        (advanceLoop (admitStep s).pipeline.reverse).bReturn) =
      ((admitStep (absSim (canonPipe s.m_lstInstructionPipeline)
          (!s.m_queInstructions.isEmpty)
          (headFlag s.m_queInstructions))).bReturn ||
        (advanceLoop (admitStep (absSim
          (canonPipe s.m_lstInstructionPipeline)
          (!s.m_queInstructions.isEmpty)
          (headFlag s.m_queInstructions))).pipeline.reverse).bReturn)
    rw [hpass, har]
  · show s.m_dwStallCtr + (if (advanceLoop
        (admitStep s).pipeline.reverse).bStalled then 1 else 0) =
      s.m_dwStallCtr + (0 + (if (advanceLoop (admitStep (absSim
        (canonPipe s.m_lstInstructionPipeline)
        (!s.m_queInstructions.isEmpty)
        (headFlag s.m_queInstructions))).pipeline.reverse).bStalled
        then 1 else 0))
    rw [hpass]
    dsimp only
    omega

/-- A canonical record of a real instruction. -/
def cR (ps : PS_PIPELINE_STATE) (f : Bool) : CInstructionData :=
  ⟨'x', ps, f⟩

/-- A canonical NOOP bubble record. -/
def cB (ps : PS_PIPELINE_STATE) (f : Bool) : CInstructionData :=
  ⟨'-', ps, f⟩

/-- The 221 canonical (pipeline shape, queue-nonempty) pairs
reachable from an empty pipeline fed with real `PS_INVALID` records. -/
def shapeSet : List (List CInstructionData × Bool) := [
  ([], false),
  ([], true),
  ([cR PS_IF false], false),
  ([cR PS_IF false], true),
  ([cR PS_IF true], false),
  ([cR PS_IF true], true),
  ([cB PS_IF false], false),
  ([cR PS_IF false, cR PS_ID false], false),
  ([cR PS_IF false, cR PS_ID false], true),
  ([cR PS_IF false, cR PS_ID true], false),
  ([cR PS_IF false, cR PS_ID true], true),
  ([cR PS_IF true, cR PS_ID false], false),
  ([cR PS_IF true, cR PS_ID false], true),
  ([cR PS_IF true, cR PS_ID true], false),
  ([cR PS_IF true, cR PS_ID true], true),
  ([cB PS_IF false, cR PS_ID false], false),
  ([cB PS_IF false, cR PS_ID true], false),
  ([cB PS_IF false, cB PS_ID false], false),
  ([cR PS_IF false, cR PS_ID false, cR PS_EX false], false),
  ([cR PS_IF false, cR PS_ID false, cR PS_EX false], true),
  ([cR PS_IF false, cR PS_ID true, cR PS_EX false], false),
  ([cR PS_IF false, cR PS_ID true, cR PS_EX false], true),
  ([cR PS_IF true, cR PS_ID false, cR PS_EX false], false),
  ([cR PS_IF true, cR PS_ID false, cR PS_EX false], true),
  ([cR PS_IF true, cR PS_ID true, cR PS_EX false], false),
  ([cR PS_IF true, cR PS_ID true, cR PS_EX false], true),
  ([cB PS_IF false, cR PS_ID false, cR PS_EX false], false),
  ([cB PS_IF false, cR PS_ID true, cR PS_EX false], false),
  ([cB PS_IF false, cB PS_ID false, cR PS_EX false], false),
  ([cB PS_IF false, cB PS_ID false, cB PS_EX false], false),
  ([cR PS_INVALID false, cR PS_IF false, cR PS_ID false, cB PS_EX false], false),
  ([cR PS_INVALID false, cR PS_IF false, cR PS_ID false, cB PS_EX false], true),
  ([cR PS_INVALID false, cR PS_IF true, cR PS_ID false, cB PS_EX false], false),
  ([cR PS_INVALID false, cR PS_IF true, cR PS_ID false, cB PS_EX false], true),
  ([cR PS_INVALID true, cR PS_IF false, cR PS_ID false, cB PS_EX false], false),
  ([cR PS_INVALID true, cR PS_IF false, cR PS_ID false, cB PS_EX false], true),
  ([cR PS_INVALID true, cR PS_IF true, cR PS_ID false, cB PS_EX false], false),
  ([cR PS_INVALID true, cR PS_IF true, cR PS_ID false, cB PS_EX false], true),
  ([cR PS_IF false, cR PS_ID false, cR PS_EX false, cR PS_WB false], false),
  ([cR PS_IF false, cR PS_ID false, cR PS_EX false, cR PS_WB false], true),
  ([cR PS_IF false, cR PS_ID false, cR PS_EX false, cR PS_COMPLETED false], false),
  ([cR PS_IF false, cR PS_ID false, cR PS_EX false, cR PS_COMPLETED false], true),
  ([cR PS_IF false, cR PS_ID false, cR PS_EX false, cB PS_WB false], false),
  ([cR PS_IF false, cR PS_ID false, cR PS_EX false, cB PS_WB false], true),
  ([cR PS_IF false, cR PS_ID false, cR PS_WB false, cR PS_WB false], false),
  ([cR PS_IF false, cR PS_ID false, cR PS_WB false, cR PS_WB false], true),
  ([cR PS_IF false, cR PS_ID false, cR PS_WB false, cB PS_COMPLETED false], false),
  ([cR PS_IF false, cR PS_ID false, cR PS_WB false, cB PS_COMPLETED false], true),
  ([cR PS_IF false, cR PS_ID true, cR PS_EX false, cR PS_WB false], false),
  ([cR PS_IF false, cR PS_ID true, cR PS_EX false, cR PS_WB false], true),
  ([cR PS_IF false, cR PS_ID true, cR PS_EX false, cR PS_COMPLETED false], false),
  ([cR PS_IF false, cR PS_ID true, cR PS_EX false, cR PS_COMPLETED false], true),
  ([cR PS_IF false, cR PS_ID true, cR PS_EX false, cB PS_WB false], false),
  ([cR PS_IF false, cR PS_ID true, cR PS_EX false, cB PS_WB false], true),
  ([cR PS_IF false, cR PS_ID true, cR PS_WB false, cR PS_WB false], false),
  ([cR PS_IF false, cR PS_ID true, cR PS_WB false, cR PS_WB false], true),
  ([cR PS_IF false, cR PS_ID true, cR PS_WB false, cB PS_COMPLETED false], false),
  ([cR PS_IF false, cR PS_ID true, cR PS_WB false, cB PS_COMPLETED false], true),
  ([cR PS_IF false, cR PS_EX false, cR PS_EX false, cR PS_WB false], false),
  ([cR PS_IF false, cR PS_EX false, cR PS_EX false, cR PS_WB false], true),
  ([cR PS_IF false, cR PS_EX false, cR PS_EX false, cB PS_WB false], false),
  ([cR PS_IF false, cR PS_EX false, cR PS_EX false, cB PS_WB false], true),
  ([cR PS_IF false, cR PS_EX false, cB PS_WB false, cR PS_WB false], false),
  ([cR PS_IF false, cR PS_EX false, cB PS_WB false, cR PS_WB false], true),
  ([cR PS_IF true, cR PS_ID false, cR PS_EX false, cR PS_WB false], false),
  ([cR PS_IF true, cR PS_ID false, cR PS_EX false, cR PS_WB false], true),
  ([cR PS_IF true, cR PS_ID false, cR PS_EX false, cR PS_COMPLETED false], false),
  ([cR PS_IF true, cR PS_ID false, cR PS_EX false, cR PS_COMPLETED false], true),
  ([cR PS_IF true, cR PS_ID false, cR PS_EX false, cB PS_WB false], false),
  ([cR PS_IF true, cR PS_ID false, cR PS_EX false, cB PS_WB false], true),
  ([cR PS_IF true, cR PS_ID false, cR PS_WB false, cR PS_WB false], false),
  ([cR PS_IF true, cR PS_ID false, cR PS_WB false, cR PS_WB false], true),
  ([cR PS_IF true, cR PS_ID false, cR PS_WB false, cB PS_COMPLETED false], false),
  ([cR PS_IF true, cR PS_ID false, cR PS_WB false, cB PS_COMPLETED false], true),
  ([cR PS_IF true, cR PS_ID true, cR PS_EX false, cR PS_WB false], false),
  ([cR PS_IF true, cR PS_ID true, cR PS_EX false, cR PS_WB false], true),
  ([cR PS_IF true, cR PS_ID true, cR PS_EX false, cR PS_COMPLETED false], false),
  ([cR PS_IF true, cR PS_ID true, cR PS_EX false, cR PS_COMPLETED false], true),
  ([cR PS_IF true, cR PS_ID true, cR PS_EX false, cB PS_WB false], false),
  ([cR PS_IF true, cR PS_ID true, cR PS_EX false, cB PS_WB false], true),
  ([cR PS_IF true, cR PS_ID true, cR PS_WB false, cR PS_WB false], false),
  ([cR PS_IF true, cR PS_ID true, cR PS_WB false, cR PS_WB false], true),
  ([cR PS_IF true, cR PS_ID true, cR PS_WB false, cB PS_COMPLETED false], false),
  ([cR PS_IF true, cR PS_ID true, cR PS_WB false, cB PS_COMPLETED false], true),
  ([cR PS_IF true, cR PS_EX false, cR PS_EX false, cR PS_WB false], false),
  ([cR PS_IF true, cR PS_EX false, cR PS_EX false, cR PS_WB false], true),
  ([cR PS_IF true, cR PS_EX false, cR PS_EX false, cB PS_WB false], false),
  ([cR PS_IF true, cR PS_EX false, cR PS_EX false, cB PS_WB false], true),
  ([cR PS_IF true, cR PS_EX false, cB PS_WB false, cR PS_WB false], false),
  ([cR PS_IF true, cR PS_EX false, cB PS_WB false, cR PS_WB false], true),
  ([cR PS_ID false, cR PS_ID false, cR PS_EX false, cR PS_WB false], false),
  ([cR PS_ID false, cR PS_ID false, cR PS_EX false, cR PS_WB false], true),
  ([cR PS_ID false, cR PS_ID false, cR PS_EX false, cB PS_WB false], false),
  ([cR PS_ID false, cR PS_ID false, cR PS_EX false, cB PS_WB false], true),
  ([cR PS_ID false, cR PS_ID true, cR PS_EX false, cR PS_WB false], false),
  ([cR PS_ID false, cR PS_ID true, cR PS_EX false, cR PS_WB false], true),
  ([cR PS_ID false, cR PS_ID true, cR PS_EX false, cB PS_WB false], false),
  ([cR PS_ID false, cR PS_ID true, cR PS_EX false, cB PS_WB false], true),
  ([cR PS_ID true, cR PS_ID false, cR PS_EX false, cR PS_WB false], false),
  ([cR PS_ID true, cR PS_ID false, cR PS_EX false, cR PS_WB false], true),
  ([cR PS_ID true, cR PS_ID false, cR PS_EX false, cB PS_WB false], false),
  ([cR PS_ID true, cR PS_ID false, cR PS_EX false, cB PS_WB false], true),
  ([cR PS_ID true, cR PS_ID true, cR PS_EX false, cR PS_WB false], false),
  ([cR PS_ID true, cR PS_ID true, cR PS_EX false, cR PS_WB false], true),
  ([cR PS_ID true, cR PS_ID true, cR PS_EX false, cB PS_WB false], false),
  ([cR PS_ID true, cR PS_ID true, cR PS_EX false, cB PS_WB false], true),
  ([cB PS_INVALID false, cR PS_IF false, cR PS_ID false, cB PS_EX false], false),
  ([cB PS_INVALID false, cR PS_IF true, cR PS_ID false, cB PS_EX false], false),
  ([cB PS_INVALID false, cB PS_IF false, cR PS_ID false, cB PS_EX false], false),
  ([cB PS_IF false, cR PS_ID false, cR PS_EX false, cR PS_WB false], false),
  ([cB PS_IF false, cR PS_ID false, cR PS_EX false, cR PS_COMPLETED false], false),
  ([cB PS_IF false, cR PS_ID false, cR PS_EX false, cB PS_WB false], false),
  ([cB PS_IF false, cR PS_ID false, cR PS_WB false, cR PS_WB false], false),
  ([cB PS_IF false, cR PS_ID false, cR PS_WB false, cB PS_COMPLETED false], false),
  ([cB PS_IF false, cR PS_ID true, cR PS_EX false, cR PS_WB false], false),
  ([cB PS_IF false, cR PS_ID true, cR PS_EX false, cR PS_COMPLETED false], false),
  ([cB PS_IF false, cR PS_ID true, cR PS_EX false, cB PS_WB false], false),
  ([cB PS_IF false, cR PS_ID true, cR PS_WB false, cR PS_WB false], false),
  ([cB PS_IF false, cR PS_ID true, cR PS_WB false, cB PS_COMPLETED false], false),
  ([cB PS_IF false, cR PS_EX false, cR PS_EX false, cR PS_WB false], false),
  ([cB PS_IF false, cR PS_EX false, cR PS_EX false, cB PS_WB false], false),
  ([cB PS_IF false, cR PS_EX false, cB PS_WB false, cR PS_WB false], false),
  ([cB PS_IF false, cB PS_ID false, cR PS_EX false, cR PS_WB false], false),
  ([cB PS_IF false, cB PS_ID false, cR PS_EX false, cR PS_COMPLETED false], false),
  ([cB PS_IF false, cB PS_ID false, cR PS_EX false, cB PS_WB false], false),
  ([cB PS_IF false, cB PS_ID false, cR PS_WB false, cR PS_WB false], false),
  ([cB PS_IF false, cB PS_ID false, cR PS_WB false, cB PS_COMPLETED false], false),
  ([cB PS_IF false, cB PS_ID false, cB PS_EX false, cR PS_WB false], false),
  ([cB PS_IF false, cB PS_ID false, cB PS_EX false, cR PS_COMPLETED false], false),
  ([cB PS_IF false, cB PS_ID false, cB PS_EX false, cB PS_WB false], false),
  ([cB PS_IF false, cB PS_ID false, cB PS_EX false, cB PS_COMPLETED false], false),
  ([cB PS_IF false, cB PS_ID false, cB PS_WB false, cR PS_WB false], false),
  ([cB PS_IF false, cB PS_ID false, cB PS_WB false, cB PS_WB false], false),
  ([cB PS_IF false, cB PS_EX false, cR PS_EX false, cR PS_WB false], false),
  ([cB PS_IF false, cB PS_EX false, cR PS_EX false, cB PS_WB false], false),
  ([cB PS_IF false, cB PS_EX false, cB PS_EX false, cR PS_WB false], false),
  ([cB PS_IF false, cB PS_EX false, cB PS_EX false, cB PS_WB false], false),
  ([cB PS_ID false, cR PS_ID false, cR PS_EX false, cR PS_WB false], false),
  ([cB PS_ID false, cR PS_ID false, cR PS_EX false, cB PS_WB false], false),
  ([cB PS_ID false, cR PS_ID true, cR PS_EX false, cR PS_WB false], false),
  ([cB PS_ID false, cR PS_ID true, cR PS_EX false, cB PS_WB false], false),
  ([cB PS_ID false, cB PS_ID false, cR PS_EX false, cR PS_WB false], false),
  ([cB PS_ID false, cB PS_ID false, cR PS_EX false, cB PS_WB false], false),
  ([cB PS_ID false, cB PS_ID false, cB PS_EX false, cR PS_WB false], false),
  ([cR PS_INVALID false, cR PS_IF false, cR PS_ID false, cB PS_EX false, cR PS_WB false], false),
  ([cR PS_INVALID false, cR PS_IF false, cR PS_ID false, cB PS_EX false, cR PS_WB false], true),
  ([cR PS_INVALID false, cR PS_IF false, cR PS_ID false, cB PS_EX false, cR PS_COMPLETED false], false),
  ([cR PS_INVALID false, cR PS_IF false, cR PS_ID false, cB PS_EX false, cR PS_COMPLETED false], true),
  ([cR PS_INVALID false, cR PS_IF true, cR PS_ID false, cB PS_EX false, cR PS_WB false], false),
  ([cR PS_INVALID false, cR PS_IF true, cR PS_ID false, cB PS_EX false, cR PS_WB false], true),
  ([cR PS_INVALID false, cR PS_IF true, cR PS_ID false, cB PS_EX false, cR PS_COMPLETED false], false),
  ([cR PS_INVALID false, cR PS_IF true, cR PS_ID false, cB PS_EX false, cR PS_COMPLETED false], true),
  ([cR PS_INVALID false, cR PS_ID false, cR PS_ID false, cB PS_EX false, cR PS_WB false], false),
  ([cR PS_INVALID false, cR PS_ID false, cR PS_ID false, cB PS_EX false, cR PS_WB false], true),
  ([cR PS_INVALID false, cR PS_ID false, cB PS_EX false, cR PS_EX false, cR PS_WB false], false),
  ([cR PS_INVALID false, cR PS_ID false, cB PS_EX false, cR PS_EX false, cR PS_WB false], true),
  ([cR PS_INVALID false, cR PS_ID false, cB PS_EX false, cR PS_EX false, cB PS_WB false], false),
  ([cR PS_INVALID false, cR PS_ID false, cB PS_EX false, cR PS_EX false, cB PS_WB false], true),
  ([cR PS_INVALID false, cR PS_ID true, cR PS_ID false, cB PS_EX false, cR PS_WB false], false),
  ([cR PS_INVALID false, cR PS_ID true, cR PS_ID false, cB PS_EX false, cR PS_WB false], true),
  ([cR PS_INVALID true, cR PS_IF false, cR PS_ID false, cB PS_EX false, cR PS_WB false], false),
  ([cR PS_INVALID true, cR PS_IF false, cR PS_ID false, cB PS_EX false, cR PS_WB false], true),
  ([cR PS_INVALID true, cR PS_IF false, cR PS_ID false, cB PS_EX false, cR PS_COMPLETED false], false),
  ([cR PS_INVALID true, cR PS_IF false, cR PS_ID false, cB PS_EX false, cR PS_COMPLETED false], true),
  ([cR PS_INVALID true, cR PS_IF true, cR PS_ID false, cB PS_EX false, cR PS_WB false], false),
  ([cR PS_INVALID true, cR PS_IF true, cR PS_ID false, cB PS_EX false, cR PS_WB false], true),
  ([cR PS_INVALID true, cR PS_IF true, cR PS_ID false, cB PS_EX false, cR PS_COMPLETED false], false),
  ([cR PS_INVALID true, cR PS_IF true, cR PS_ID false, cB PS_EX false, cR PS_COMPLETED false], true),
  ([cR PS_INVALID true, cR PS_ID false, cR PS_ID false, cB PS_EX false, cR PS_WB false], false),
  ([cR PS_INVALID true, cR PS_ID false, cR PS_ID false, cB PS_EX false, cR PS_WB false], true),
  ([cR PS_INVALID true, cR PS_ID false, cB PS_EX false, cR PS_EX false, cR PS_WB false], false),
  ([cR PS_INVALID true, cR PS_ID false, cB PS_EX false, cR PS_EX false, cR PS_WB false], true),
  ([cR PS_INVALID true, cR PS_ID false, cB PS_EX false, cR PS_EX false, cB PS_WB false], false),
  ([cR PS_INVALID true, cR PS_ID false, cB PS_EX false, cR PS_EX false, cB PS_WB false], true),
  ([cR PS_INVALID true, cR PS_ID true, cR PS_ID false, cB PS_EX false, cR PS_WB false], false),
  ([cR PS_INVALID true, cR PS_ID true, cR PS_ID false, cB PS_EX false, cR PS_WB false], true),
  ([cR PS_IF false, cR PS_IF false, cR PS_ID false, cR PS_EX false, cB PS_WB false], false),
  ([cR PS_IF false, cR PS_IF false, cR PS_ID false, cR PS_EX false, cB PS_WB false], true),
  ([cR PS_IF false, cR PS_IF false, cR PS_ID false, cB PS_EX false, cR PS_WB false], false),
  ([cR PS_IF false, cR PS_IF false, cR PS_ID false, cB PS_EX false, cR PS_WB false], true),
  ([cR PS_IF false, cR PS_IF false, cR PS_ID true, cR PS_EX false, cB PS_WB false], false),
  ([cR PS_IF false, cR PS_IF false, cR PS_ID true, cR PS_EX false, cB PS_WB false], true),
  ([cR PS_IF false, cR PS_IF true, cR PS_ID false, cR PS_EX false, cB PS_WB false], false),
  ([cR PS_IF false, cR PS_IF true, cR PS_ID false, cR PS_EX false, cB PS_WB false], true),
  ([cR PS_IF false, cR PS_IF true, cR PS_ID false, cB PS_EX false, cR PS_WB false], false),
  ([cR PS_IF false, cR PS_IF true, cR PS_ID false, cB PS_EX false, cR PS_WB false], true),
  ([cR PS_IF false, cR PS_IF true, cR PS_ID true, cR PS_EX false, cB PS_WB false], false),
  ([cR PS_IF false, cR PS_IF true, cR PS_ID true, cR PS_EX false, cB PS_WB false], true),
  ([cR PS_IF true, cR PS_IF false, cR PS_ID false, cR PS_EX false, cB PS_WB false], false),
  ([cR PS_IF true, cR PS_IF false, cR PS_ID false, cR PS_EX false, cB PS_WB false], true),
  ([cR PS_IF true, cR PS_IF false, cR PS_ID false, cB PS_EX false, cR PS_WB false], false),
  ([cR PS_IF true, cR PS_IF false, cR PS_ID false, cB PS_EX false, cR PS_WB false], true),
  ([cR PS_IF true, cR PS_IF false, cR PS_ID true, cR PS_EX false, cB PS_WB false], false),
  ([cR PS_IF true, cR PS_IF false, cR PS_ID true, cR PS_EX false, cB PS_WB false], true),
  ([cR PS_IF true, cR PS_IF true, cR PS_ID false, cR PS_EX false, cB PS_WB false], false),
  ([cR PS_IF true, cR PS_IF true, cR PS_ID false, cR PS_EX false, cB PS_WB false], true),
  ([cR PS_IF true, cR PS_IF true, cR PS_ID false, cB PS_EX false, cR PS_WB false], false),
  ([cR PS_IF true, cR PS_IF true, cR PS_ID false, cB PS_EX false, cR PS_WB false], true),
  ([cR PS_IF true, cR PS_IF true, cR PS_ID true, cR PS_EX false, cB PS_WB false], false),
  ([cR PS_IF true, cR PS_IF true, cR PS_ID true, cR PS_EX false, cB PS_WB false], true),
  ([cB PS_INVALID false, cR PS_IF false, cR PS_ID false, cB PS_EX false, cR PS_WB false], false),
  ([cB PS_INVALID false, cR PS_IF false, cR PS_ID false, cB PS_EX false, cR PS_COMPLETED false], false),
  ([cB PS_INVALID false, cR PS_IF true, cR PS_ID false, cB PS_EX false, cR PS_WB false], false),
  ([cB PS_INVALID false, cR PS_IF true, cR PS_ID false, cB PS_EX false, cR PS_COMPLETED false], false),
  ([cB PS_INVALID false, cR PS_ID false, cR PS_ID false, cB PS_EX false, cR PS_WB false], false),
  ([cB PS_INVALID false, cR PS_ID false, cB PS_EX false, cR PS_EX false, cR PS_WB false], false),
  ([cB PS_INVALID false, cR PS_ID false, cB PS_EX false, cR PS_EX false, cB PS_WB false], false),
  ([cB PS_INVALID false, cR PS_ID true, cR PS_ID false, cB PS_EX false, cR PS_WB false], false),
  ([cB PS_INVALID false, cB PS_IF false, cR PS_ID false, cB PS_EX false, cR PS_WB false], false),
  ([cB PS_INVALID false, cB PS_IF false, cR PS_ID false, cB PS_EX false, cR PS_COMPLETED false], false),
  ([cB PS_INVALID false, cB PS_ID false, cR PS_ID false, cB PS_EX false, cR PS_WB false], false),
  ([cB PS_IF false, cR PS_IF false, cR PS_ID false, cR PS_EX false, cB PS_WB false], false),
  ([cB PS_IF false, cR PS_IF false, cR PS_ID false, cB PS_EX false, cR PS_WB false], false),
  ([cB PS_IF false, cR PS_IF false, cR PS_ID true, cR PS_EX false, cB PS_WB false], false),
  ([cB PS_IF false, cR PS_IF true, cR PS_ID false, cR PS_EX false, cB PS_WB false], false),
  ([cB PS_IF false, cR PS_IF true, cR PS_ID false, cB PS_EX false, cR PS_WB false], false),
  ([cB PS_IF false, cR PS_IF true, cR PS_ID true, cR PS_EX false, cB PS_WB false], false),
  ([cB PS_IF false, cB PS_IF false, cR PS_ID false, cR PS_EX false, cB PS_WB false], false),
  ([cB PS_IF false, cB PS_IF false, cR PS_ID false, cB PS_EX false, cR PS_WB false], false),
  ([cB PS_IF false, cB PS_IF false, cR PS_ID true, cR PS_EX false, cB PS_WB false], false),
  ([cB PS_IF false, cB PS_IF false, cB PS_ID false, cR PS_EX false, cB PS_WB false], false)]

/-- One abstract pipeline transition. -/
def absNextPipe (p : List CInstructionData) (qn fl : Bool) :
    List CInstructionData :=
  (ProcessNextCycle (absSim p qn fl)).1.m_lstInstructionPipeline

/-- The boolean result of one abstract transition. -/
def absRet (p : List CInstructionData) (qn fl : Bool) : Bool :=
  (ProcessNextCycle (absSim p qn fl)).2

/-- The stall increment of one abstract transition. -/
def absStallInc (p : List CInstructionData) (qn fl : Bool) : Nat :=
  (ProcessNextCycle (absSim p qn fl)).1.m_dwStallCtr

/-- Whether the cycle admits the queued record. -/
def admitsQ (p : List CInstructionData) (qn : Bool) : Bool :=
  decide (p.length ≤ 4) && qn

def memShape (p : List CInstructionData) (qn : Bool) : Bool :=
  decide ((p, qn) ∈ shapeSet)

/-- Per-shape certificate: closure of `shapeSet`, queue-nonempty calls
return true, flag conservation, and a false call leaves no flags. -/
def checkEntry (p : List CInstructionData) (qn fl : Bool) : Bool :=
  (if admitsQ p qn then
      memShape (absNextPipe p qn fl) true &&
      memShape (absNextPipe p qn fl) false
    else memShape (absNextPipe p qn fl) qn) &&
  (!qn || absRet p qn fl) &&
  decide (absStallInc p qn fl + flagsList (absNextPipe p qn fl) =
    flagsList p + (admitsQ p qn && fl).toNat) &&
  (absRet p qn fl || decide (flagsList (absNextPipe p qn fl) = 0))

def checkAll : Bool :=
  shapeSet.all (fun e =>
    if e.2 then checkEntry e.1 true false && checkEntry e.1 true true
    else checkEntry e.1 false false)

set_option maxRecDepth 100000 in
lemma checkAll_eq : checkAll = true := by decide

lemma initShape_mem : (([] : List CInstructionData), true) ∈ shapeSet ∧
    (([] : List CInstructionData), false) ∈ shapeSet := by decide

/-- Queues fed by the driver: every record is a real instruction at
`PS_INVALID`. -/
def QueueOK (q : List CInstructionData) : Prop :=
  ∀ r ∈ q, r.m_psState = PS_INVALID ∧ r.IsNOOP = false

/-- States reachable in a driver run: depth 4, a driver queue, and a
canonical pipeline shape in `shapeSet`. -/
def ReachState (s : CPipelineSim) : Prop :=
  s.m_dwMaxPipelineDepth = 4 ∧ QueueOK s.m_queInstructions ∧
  (canonPipe s.m_lstInstructionPipeline,
    !s.m_queInstructions.isEmpty) ∈ shapeSet

lemma checkEntry_parts (p : List CInstructionData) (qn fl : Bool)
    (h : checkEntry p qn fl = true) :
    (if admitsQ p qn = true then
        memShape (absNextPipe p qn fl) true = true ∧
        memShape (absNextPipe p qn fl) false = true
      else memShape (absNextPipe p qn fl) qn = true) ∧
    (!qn || absRet p qn fl) = true ∧
    absStallInc p qn fl + flagsList (absNextPipe p qn fl) =
      flagsList p + (admitsQ p qn && fl).toNat ∧
    (absRet p qn fl || decide (flagsList (absNextPipe p qn fl) = 0))
      = true := by
  unfold checkEntry at h
  by_cases ha : admitsQ p qn = true
  · rw [if_pos ha] at h
    rw [if_pos ha]
    simp only [Bool.and_eq_true] at h
    obtain ⟨⟨⟨⟨h1, h2⟩, h3⟩, h4⟩, h5⟩ := h
    exact ⟨⟨h1, h2⟩, h3, of_decide_eq_true h4, h5⟩
  · rw [if_neg ha] at h
    rw [if_neg ha]
    simp only [Bool.and_eq_true] at h
    obtain ⟨⟨⟨h1, h3⟩, h4⟩, h5⟩ := h
    exact ⟨h1, h3, of_decide_eq_true h4, h5⟩

lemma checkEntry_of_mem (p : List CInstructionData) (qn fl : Bool)
    (hmem : (p, qn) ∈ shapeSet) (hfl : qn = false → fl = false) :
    checkEntry p qn fl = true := by
  have h := List.all_eq_true.mp checkAll_eq _ hmem
  cases hqn : qn
  · rw [hfl hqn]
    rw [hqn] at h
    simpa using h
  · rw [hqn] at h
    simp only [if_true] at h
    rw [Bool.and_eq_true] at h
    cases hfl2 : fl
    · exact h.1
    · exact h.2

lemma admit_queue_eq (s : CPipelineSim) (hd : s.m_dwMaxPipelineDepth = 4) :
    (admitStep s).queue =
      (if s.m_lstInstructionPipeline.length ≤ 4 then
        s.m_queInstructions.tail else s.m_queInstructions) := by
  unfold admitStep
  rw [hd]
  by_cases hlen : s.m_lstInstructionPipeline.length ≤ 4
  · rw [if_pos hlen, if_pos hlen]
    rcases s.m_queInstructions with _ | ⟨r, rest⟩ <;> rfl
  · rw [if_neg hlen, if_neg hlen]

lemma reach_step (s : CPipelineSim) (hR : ReachState s) :
    ReachState (stepSim s) ∧
    (stepSim s).m_dwStallCtr + flagsSim (stepSim s) =
      s.m_dwStallCtr + flagsSim s ∧
    ((ProcessNextCycle s).2 = false →
      (stepSim s).m_queInstructions = [] ∧ flagsSim (stepSim s) = 0) := by
  obtain ⟨hd, hq, hmem⟩ := hR
  have hflc : (!s.m_queInstructions.isEmpty) = false →
      headFlag s.m_queInstructions = false := by
    intro h
    have hnil : s.m_queInstructions = [] := by
      simpa using h
    rw [hnil]
    rfl
  have hce := checkEntry_of_mem _ _ _ hmem hflc
  obtain ⟨hclos, hqnret, hcons0, hflags0⟩ := checkEntry_parts _ _ _ hce
  obtain ⟨hpipe, hret, hstall⟩ := canon_step s hd (fun r hr => hq r hr)
  have hpipe' : canonPipe (stepSim s).m_lstInstructionPipeline =
      absNextPipe (canonPipe s.m_lstInstructionPipeline)
        (!s.m_queInstructions.isEmpty)
        (headFlag s.m_queInstructions) := hpipe
  have hret' : (ProcessNextCycle s).2 =
      absRet (canonPipe s.m_lstInstructionPipeline)
        (!s.m_queInstructions.isEmpty)
        (headFlag s.m_queInstructions) := hret
  have hstall' : (stepSim s).m_dwStallCtr = s.m_dwStallCtr +
      absStallInc (canonPipe s.m_lstInstructionPipeline)
        (!s.m_queInstructions.isEmpty)
        (headFlag s.m_queInstructions) := hstall
  have hqnext : (stepSim s).m_queInstructions = (admitStep s).queue := rfl
  have hqadm := admit_queue_eq s hd
  have hqok : QueueOK (stepSim s).m_queInstructions := by
    rw [hqnext, hqadm]
    by_cases hlen : s.m_lstInstructionPipeline.length ≤ 4
    · rw [if_pos hlen]
      intro r hr
      exact hq r (List.mem_of_mem_tail hr)
    · rw [if_neg hlen]
      exact hq
  have hd' : (stepSim s).m_dwMaxPipelineDepth = 4 := hd
  have hpflags : flagsList (stepSim s).m_lstInstructionPipeline =
      flagsList (absNextPipe (canonPipe s.m_lstInstructionPipeline)
        (!s.m_queInstructions.isEmpty)
        (headFlag s.m_queInstructions)) := by
    rw [← hpipe', canonPipe_flags]
  have hpflagsOld : flagsList (canonPipe s.m_lstInstructionPipeline) =
      flagsList s.m_lstInstructionPipeline := canonPipe_flags _
  have hfs : flagsSim (stepSim s) =
      flagsList (stepSim s).m_lstInstructionPipeline +
      flagsList (stepSim s).m_queInstructions := rfl
  have hfs2 : flagsSim s = flagsList s.m_lstInstructionPipeline +
      flagsList s.m_queInstructions := rfl
  rcases hqe : s.m_queInstructions with _ | ⟨r, rest⟩
  · -- queue empty
    have hqn : (!s.m_queInstructions.isEmpty) = false := by
      rw [hqe]
      rfl
    have hadm : admitsQ (canonPipe s.m_lstInstructionPipeline)
        (!s.m_queInstructions.isEmpty) = false := by
      rw [hqn]
      simp [admitsQ]
    rw [hadm] at hclos hcons0
    simp only [if_neg (by simp : ¬ (false = true))] at hclos
    simp only [Bool.false_and, Bool.toNat_false] at hcons0
    have hq2 : (stepSim s).m_queInstructions = [] := by
      rw [hqnext, hqadm, hqe]
      by_cases hlen : s.m_lstInstructionPipeline.length ≤ 4
      · rw [if_pos hlen]
        rfl
      · rw [if_neg hlen]
    have hqf : flagsList s.m_queInstructions = 0 := by
      rw [hqe]
      rfl
    have hz : flagsList ([] : List CInstructionData) = 0 := rfl
    refine ⟨⟨hd', hqok, ?_⟩, ?_, ?_⟩
    · rw [hpipe', hq2, hqn]
      rw [hqn] at hclos
      show (_, false) ∈ shapeSet
      exact of_decide_eq_true hclos
    · rw [hstall', hfs, hfs2, hq2, hpflags]
      omega
    · intro hfz
      refine ⟨hq2, ?_⟩
      have habs : absRet (canonPipe s.m_lstInstructionPipeline)
          (!s.m_queInstructions.isEmpty)
          (headFlag s.m_queInstructions) = false := by
        rw [← hret']
        exact hfz
      rw [habs] at hflags0
      simp only [Bool.false_or] at hflags0
      have hfl0 := of_decide_eq_true hflags0
      rw [hfs, hq2, hpflags, hfl0]
      rfl
  · -- queue r :: rest
    have hqn : (!s.m_queInstructions.isEmpty) = true := by
      rw [hqe]
      rfl
    have hqflag : flagsList s.m_queInstructions =
        (headFlag s.m_queInstructions).toNat + flagsList rest := by
      rw [hqe]
      show flagNat r + flagsList rest = r.m_bDataDependent.toNat +
        flagsList rest
      cases hb : r.m_bDataDependent <;> simp [flagNat, hb]
    by_cases hlen : s.m_lstInstructionPipeline.length ≤ 4
    · -- admission from the queue
      have hadm : admitsQ (canonPipe s.m_lstInstructionPipeline)
          (!s.m_queInstructions.isEmpty) = true := by
        rw [hqn]
        simp [admitsQ, canonPipe_length, hlen]
      rw [hadm] at hclos hcons0
      simp only [if_pos] at hclos
      rw [Bool.true_and] at hcons0
      have hq2 : (stepSim s).m_queInstructions = rest := by
        rw [hqnext, hqadm, if_pos hlen, hqe]
        rfl
      refine ⟨⟨hd', hqok, ?_⟩, ?_, ?_⟩
      · rw [hpipe', hq2]
        cases hre : rest.isEmpty
        · show (_, true) ∈ shapeSet
          exact of_decide_eq_true hclos.1
        · show (_, false) ∈ shapeSet
          exact of_decide_eq_true hclos.2
      · rw [hstall', hfs, hfs2, hq2, hpflags, hqflag]
        omega
      · intro hfz
        exfalso
        have habs : absRet (canonPipe s.m_lstInstructionPipeline)
            (!s.m_queInstructions.isEmpty)
            (headFlag s.m_queInstructions) = false := by
          rw [← hret']
          exact hfz
        rw [habs, hqe] at hqnret
        simp at hqnret
    · -- full pipeline, no admission
      have hadm : admitsQ (canonPipe s.m_lstInstructionPipeline)
          (!s.m_queInstructions.isEmpty) = false := by
        simp [admitsQ, canonPipe_length, hlen]
      rw [hadm] at hclos hcons0
      simp only [if_neg (by simp : ¬ (false = true))] at hclos
      simp only [Bool.false_and, Bool.toNat_false] at hcons0
      have hq2 : (stepSim s).m_queInstructions = s.m_queInstructions := by
        rw [hqnext, hqadm, if_neg hlen]
      refine ⟨⟨hd', hqok, ?_⟩, ?_, ?_⟩
      · rw [hpipe', hq2, hqn]
        rw [hqn] at hclos
        exact of_decide_eq_true hclos
      · rw [hstall', hfs, hfs2, hq2, hpflags]
        omega
      · intro hfz
        exfalso
        have habs : absRet (canonPipe s.m_lstInstructionPipeline)
            (!s.m_queInstructions.isEmpty)
            (headFlag s.m_queInstructions) = false := by
          rw [← hret']
          exact hfz
        rw [habs, hqe] at hqnret
        simp at hqnret

lemma reach_run (Q : List CInstructionData) (hQ : QueueOK Q) (t : Nat) :
    ReachState (runSim (queuedSim Q) t) ∧
    (runSim (queuedSim Q) t).m_dwStallCtr +
      flagsSim (runSim (queuedSim Q) t) = flagsList Q := by
  induction t with
  | zero =>
    constructor
    · refine ⟨?_, ?_, ?_⟩
      · rw [queuedSim_eq]
        rfl
      · show QueueOK (queuedSim Q).m_queInstructions
        rw [queuedSim_eq]
        exact hQ
      · rw [queuedSim_eq]
        show (canonPipe [], !Q.isEmpty) ∈ shapeSet
        cases hqe : Q.isEmpty
        · exact initShape_mem.1
        · exact initShape_mem.2
    · rw [queuedSim_eq]
      show 0 + (flagsList [] + flagsList Q) = flagsList Q
      have hz : flagsList ([] : List CInstructionData) = 0 := rfl
      omega
  | succ t ih =>
    obtain ⟨hR, hc⟩ := ih
    obtain ⟨hR2, hcons, _⟩ := reach_step _ hR
    refine ⟨hR2, ?_⟩
    show (stepSim (runSim (queuedSim Q) t)).m_dwStallCtr +
      flagsSim (stepSim (runSim (queuedSim Q) t)) = flagsList Q
    omega

lemma flags_eq_static (dag : CDependencyGraph) :
    flagsList (simInputRecords dag) =
      CalculateNumberOfStallsRequired dag := by
  rw [flagsList_eq_countP]
  unfold simInputRecords CalculateNumberOfStallsRequired
  rw [List.countP_map, List.countP_filter]
  congr 1
  funext nd
  show (nd.HasEdge (predId nd.m_ID) && nd.IsValid) =
    (nd.IsValid && nd.HasEdge (predId nd.m_ID))
  rw [Bool.and_comm]

lemma queueOK_simInput (dag : CDependencyGraph)
    (hids : ∀ nd ∈ dag.m_vNodes, nd.IsValid = true →
      nd.m_ID ≠ NOOP_INSTRUCTION) :
    QueueOK (simInputRecords dag) := by
  intro r hr
  unfold simInputRecords at hr
  rw [List.mem_map] at hr
  obtain ⟨nd, hnd, rfl⟩ := hr
  rw [List.mem_filter] at hnd
  refine ⟨rfl, ?_⟩
  have hv : nd.IsValid = true := hnd.2
  have hne := hids nd hnd.1 hv
  show decide (nd.m_ID = NOOP_INSTRUCTION) = false
  exact decide_eq_false hne

/-- **C3.** For every well-formed dependency graph, the static stall count
`CalculateNumberOfStallsRequired` equals the stall counter accumulated by
the simulator over the driver's queue (each instruction flagged by the same
edge query) once `ProcessNextCycle` returns false. -/
theorem static_stalls_match_simulation (dag : CDependencyGraph)
    (hids : ∀ nd ∈ dag.m_vNodes, nd.IsValid = true →
      nd.m_ID ≠ NOOP_INSTRUCTION)
    (n : Nat) (hn : 1 ≤ n)
    (hfalse : callResult (queuedSim (simInputRecords dag)) n = false) :
    (runSim (queuedSim (simInputRecords dag)) n).GetStallCount =
      CalculateNumberOfStallsRequired dag := by
  have hQ := queueOK_simInput dag hids
  obtain ⟨m, rfl⟩ : ∃ m, n = m + 1 := ⟨n - 1, by omega⟩
  obtain ⟨hR, hc⟩ := reach_run (simInputRecords dag) hQ m
  obtain ⟨hR2, hcons, himp⟩ := reach_step _ hR
  have hf2 : (ProcessNextCycle
      (runSim (queuedSim (simInputRecords dag)) m)).2 = false := by
    unfold callResult at hfalse
    rw [show m + 1 - 1 = m by omega] at hfalse
    exact hfalse
  obtain ⟨hqnil, hfl0⟩ := himp hf2
  show (stepSim (runSim (queuedSim (simInputRecords dag)) m)).m_dwStallCtr
    = _
  rw [← flags_eq_static dag]
  omega

/-- The two-node graph a, b with the edge b → a. -/
def c3dagW : CDependencyGraph :=
  ((((CDependencyGraph.mkWith 25).AddNode 'a').1.AddNode
    'b').1.AddEdge 'b' 'a' 1).1

/-- Witness for C3 on the graph a, b with edge b → a: the run first
returns false on call 7, and both stall counts are 1. -/
theorem static_stalls_match_simulation_witness :
    1 ≤ 7 ∧
    callResult (queuedSim (simInputRecords c3dagW)) 7 = false ∧
    (runSim (queuedSim (simInputRecords c3dagW)) 7).GetStallCount =
      CalculateNumberOfStallsRequired c3dagW ∧
    CalculateNumberOfStallsRequired c3dagW = 1 :=
  ⟨by norm_num, by decide,
   static_stalls_match_simulation c3dagW (by decide) 7 (by norm_num)
     (by decide),
   by decide⟩

end InstructionPipeline
